import Mathlib

/-!
Shallow embedding of tinc's `src/protocol_key.c` (session-key exchange
meta-protocol: `KEY_CHANGED`, `REQ_KEY`, `ANS_KEY` handlers and senders).

External collaborators (the cipher/digest library, ECDH/ECDSA primitives,
the PRF, base64/hex codecs, the node graph, the seen-request cache, the
socket helpers) are not part of the source file; following the spec's §6
service interfaces they are modelled as oracle fields of `Env` (read-only
configuration and crypto services) or as explicit state in `St`.
Handlers are pure functions `Env → St → ... → Bool × St × List Effect`:
the returned `Bool` is the C handler's return value (false = hard error,
the dispatcher tears the connection down), the `St` is the mutated node
table / request cache / global flags, and the `List Effect` records the
outward actions (log lines, enqueued control frames, UDP-endpoint updates)
in program order.
-/

/-- External constant `AF_UNSPEC` from the sockets API (value 0). -/
def AF_UNSPEC : Int := 0

/-- Modelled from the spec: `options` is a bit-set with an embedded protocol
version field (`protocol.h`/`connection.h` are not under `src/`); the version
is modelled as the top byte of the option word, matching the spec's
"values ≥ 2 select the ECDH/ECDSA mode". The exact bit position is
irrelevant to every claim; only the derived version number is compared. -/
def OPTION_VERSION (o : Nat) : Nat := o / 16777216

/-- Accumulator for splitting a character list into space-separated tokens
(the C handlers parse with `sscanf` on space-separated fields). -/
def tokensAux : List Char → List Char → List String
  | [], cur => if cur.isEmpty then [] else [String.mk cur.reverse]
  | c :: rest, cur =>
    if c = ' ' then
      if cur.isEmpty then tokensAux rest [] else String.mk cur.reverse :: tokensAux rest []
    else
      tokensAux rest (c :: cur)

/-- The space-separated tokens of a request line, in order. -/
def tokensOf (s : String) : List String := tokensAux s.data []

/-- Decimal digit accumulation; fails on a non-digit character. -/
def natOfDigitsAux : List Char → Nat → Option Nat
  | [], acc => some acc
  | c :: cs, acc =>
    if c.isDigit then natOfDigitsAux cs (acc * 10 + (c.toNat - 48)) else none

/-- Parse a token as a (possibly negative) decimal integer, as `sscanf %d`
does on a whole token; `none` when the token is not a decimal number. -/
def parseInt? (s : String) : Option Int :=
  match s.data with
  | [] => none
  | '-' :: cs =>
    match cs with
    | [] => none
    | _ => (natOfDigitsAux cs 0).map (fun n => -(n : Int))
  | cs => (natOfDigitsAux cs 0).map (fun n => (n : Int))

/-- Whether a token matches `sscanf`'s `%d` (used for the skipped request
code `%*d`, whose match must still succeed). -/
def isDecTok (s : String) : Bool := (parseInt? s).isSome

/-- Byte-wise character-list comparison, as C's `strcmp` orders strings. -/
def strcmpLtAux : List Char → List Char → Bool
  | [], [] => false
  | [], _ :: _ => true
  | _ :: _, [] => false
  | a :: as, b :: bs =>
    if a.toNat < b.toNat then true
    else if b.toNat < a.toNat then false
    else strcmpLtAux as bs

/-- `strcmp(a, b) < 0`: whether `a` is lexicographically (byte-wise)
smaller than `b`. -/
def strLt (a b : String) : Bool := strcmpLtAux a.data b.data

/-- Whether a token matches `sscanf`'s `%x` (used for the skipped
`KEY_CHANGED` nonce `%*x`). -/
def isHexTok (s : String) : Bool :=
  !s.data.isEmpty &&
    s.data.all (fun c => c.isDigit || ('a' ≤ c && c ≤ 'f') || ('A' ≤ c && c ≤ 'F'))

/-- A socket address (`sockaddr_t`): the family plus an abstract
printable form consumed by `sockaddr2str`. -/
structure SockAddrT where
  family : Int
  addr : String
  port : String
deriving DecidableEq

/-- A cipher context (`cipher_t`): the NID it was opened with and the
installed key material, if any, together with the encrypt/decrypt flag
passed to `cipher_set_key`. `key = none` after `cipher_open_by_nid`. -/
structure CipherCtx where
  nid : Int
  key : Option (List Nat × Bool) := none
deriving DecidableEq

/-- A digest context (`digest_t`): the NID and requested MAC length it was
opened with and the installed MAC key, if any. -/
structure DigestCtx where
  nid : Int
  maclength : Int
  key : Option (List Nat) := none
deriving DecidableEq

/-- The subset of `node_t` that `protocol_key.c` reads or mutates. -/
structure Node where
  name : String
  hostname : String
  options : Nat
  reachable : Bool
  validkey : Bool
  last_req_key : Nat
  nexthop : String
  incipher : CipherCtx
  indigest : DigestCtx
  incompression : Int
  outcipher : CipherCtx
  outdigest : DigestCtx
  outcompression : Int
  received_seqno : Nat
  sent_seqno : Nat
  late : List Bool
  address : SockAddrT
  ecdh : Bool
  ecdsaKnown : Bool
deriving DecidableEq

/-- The subset of `connection_t` that `send_key_changed` reads. -/
structure Conn where
  name : String
  hostname : String
  active : Bool
  node : Option String
deriving DecidableEq

/-- One structured log line; each constructor corresponds to one distinct
`logger(...)` format string in `protocol_key.c`. -/
inductive LogMsg where
  | badRequest (kind cName cHost : String)
  | badName (kind cName cHost : String)
  | originUnknown (kind cName cHost name : String)
  | destUnknown (kind cName cHost name : String)
  | destUnreachable (kind cName cHost name : String)
  | appendingReflexive (fromName toName : String)
  | unknownCipher (name hostname : String)
  | unknownDigest (name hostname : String)
  | bogusMaclength (name hostname : String)
  | bogusCompression (name hostname : String)
  | noEcdsaKey (name hostname : String)
  | wrongKeylengthModern (name hostname : String)
  | ecdhTooShort (name : String)
  | possibleIntruder (name hostname reason : String)
  | wrongKeylength (name hostname : String)
  | usingReflexive (name addr port : String)
  | ansPubkeyAlready (name hostname : String)
  | badAnsPubkey (name hostname : String)
  | learnedPubkey (name hostname : String)
  | unknownExtended (name hostname request : String)
deriving DecidableEq

/-- An outward action of a handler, in program order. -/
inductive Effect where
  | log (m : LogMsg)
  | sendRequest (connName frame : String)
  | forwardRequest (request : String)
  | sendMtuProbe (name : String)
  | updateNodeUdp (name addr port : String)
  | appendConfigFile (name key value : String)
deriving DecidableEq

/-- Read-only process configuration plus the external crypto/codec services
of spec §6, as deterministic oracles. Randomness (`randomize`, ECDH key
generation) is modelled by oracle fields as well; the handlers never inspect
the material, only move it. -/
structure Env where
  experimental : Bool
  tunnelserver : Bool
  replaywin : Nat
  myselfName : String
  myselfIncipherNid : Int
  myselfIndigestNid : Int
  myselfIndigestLen : Int
  myselfIncompression : Int
  myselfEcdsaBase64 : String
  OPTION_PMTU_DISCOVERY : Nat
  KEY_CHANGED : Int
  REQ_KEY : Int
  ANS_KEY : Int
  REQ_PUBKEY : Int
  ANS_PUBKEY : Int
  ECDH_SIZE : Nat
  ECDH_SHARED_SIZE : Nat
  cipherOpenOk : Int → Bool
  cipherKeylength : Int → Nat
  digestOpenOk : Int → Int → Bool
  digestLengthCtx : Int → Int → Int
  checkId : String → Bool
  readEcdsaPublicKey : String → Bool
  ecdsaSizeOf : String → Nat
  ecdsaVerify : String → List Nat → List Nat → Bool
  ecdsaSetBase64Ok : String → Bool
  ecdhGeneratePublic : String → Option (List Nat)
  ecdsaSign : List Nat → Option (List Nat)
  ecdhComputeShared : String → List Nat → Option (List Nat)
  prf : List Nat → String → Nat → Option (List Nat)
  b64decode : String → List Nat
  b64encode : List Nat → String
  hex2bin : String → List Nat
  bin2hex : List Nat → String
  randomize : Nat → List Nat
  sockaddr2str : SockAddrT → String × String

/-- Mutable process state: the node table (keyed by node name), the
seen-request cache, the `mykeyused` flag and the connection list. -/
structure St where
  nodes : String → Option Node
  seen : List String
  mykeyused : Bool
  connections : List Conn

/-- Point update of the node table. -/
def updNode (nodes : String → Option Node) (name : String) (n : Node) :
    String → Option Node :=
  fun m => if m = name then some n else nodes m

/-- `digest_length` of an open digest context (external `digest.c`): the
length the digest layer reports for a context opened with the given NID and
requested MAC length. -/
def digest_length (env : Env) (d : DigestCtx) : Int :=
  env.digestLengthCtx d.nid d.maclength

/-- `cipher_set_key(ctx, material, encrypt)`: stores `cipher_keylength(ctx)`
bytes of key material and the direction flag. -/
def cipher_set_key (env : Env) (c : CipherCtx) (material : List Nat) (encrypt : Bool) :
    CipherCtx :=
  { c with key := some (material.take (env.cipherKeylength c.nid), encrypt) }

/-- `digest_set_key(ctx, material, len)`: stores `len` bytes of MAC key. -/
def digest_set_key (d : DigestCtx) (material : List Nat) (len : Nat) : DigestCtx :=
  { d with key := some (material.take len) }

/-- Modelled from the spec: `seen_request` (`protocol.c`, not under `src/`)
is "insert-if-absent; returns prior presence" (§6). -/
def seen_request (st : St) (request : String) : Bool × St :=
  if request ∈ st.seen then (true, st)
  else (false, { st with seen := request :: st.seen })

/-- `send_ans_key_ecdh(to)` (lines 184-204): generate an ephemeral ECDH
public point into `to->ecdh`, ECDSA-sign it, base64-encode point+signature
and emit the `ANS_KEY` frame advertising our inbound parameters. Returns the
C result, the updated `to` node, the updated state and the effects. -/
def send_ans_key_ecdh (env : Env) (st : St) (toN : Node) :
    Bool × Node × St × List Effect :=
  match env.ecdhGeneratePublic toN.name with
  | none => (false, toN, st, [])
  | some pub =>
    let toN := { toN with ecdh := true }
    let st := { st with nodes := updNode st.nodes toN.name toN }
    match env.ecdsaSign pub with
    | none => (false, toN, st, [])
    | some sig =>
      let b64 := env.b64encode (pub ++ sig)
      let ak := env.ANS_KEY
      let me := env.myselfName
      let tn := toN.name
      let ci := env.myselfIncipherNid
      let di := env.myselfIndigestNid
      let dl := env.myselfIndigestLen
      let cp := env.myselfIncompression
      (true, toN, st,
        [.sendRequest toN.nexthop s!"{ak} {me} {tn} {b64} {ci} {di} {dl} {cp}"])

/-- `send_ans_key(to)` (lines 206-234): modern peers get the ECDH variant;
legacy peers get a freshly randomized symmetric key installed into
`to->incipher`/`to->indigest` (with sequence counter and replay window
reset in the same step) and shipped hex-encoded. -/
def send_ans_key (env : Env) (st : St) (toN : Node) : Bool × St × List Effect :=
  if env.experimental ∧ OPTION_VERSION toN.options ≥ 2 then
    let r := send_ans_key_ecdh env st toN
    (r.1, r.2.2.1, r.2.2.2)
  else
    let keylen := env.cipherKeylength env.myselfIncipherNid
    let key := env.randomize keylen
    let toN := { toN with
      incipher := { nid := env.myselfIncipherNid, key := none },
      indigest := { nid := env.myselfIndigestNid, maclength := env.myselfIndigestLen,
                    key := none },
      incompression := env.myselfIncompression }
    let toN := { toN with
      incipher := cipher_set_key env toN.incipher key false,
      indigest := digest_set_key toN.indigest key keylen }
    let hex := env.bin2hex key
    let toN := { toN with
      received_seqno := 0,
      late := if env.replaywin ≠ 0 then List.replicate env.replaywin false else toN.late }
    let st := { st with nodes := updNode st.nodes toN.name toN, mykeyused := true }
    let ak := env.ANS_KEY
    let me := env.myselfName
    let tn := toN.name
    let ci := env.myselfIncipherNid
    let di := env.myselfIndigestNid
    let dl := env.digestLengthCtx env.myselfIndigestNid env.myselfIndigestLen
    let cp := env.myselfIncompression
    (true, st, [.sendRequest toN.nexthop s!"{ak} {me} {tn} {hex} {ci} {di} {dl} {cp}"])

/-- `send_req_key(to)` (lines 86-92): in experimental mode with a modern
peer whose ECDSA public key we lack, first emit the `REQ_PUBKEY` extended
request; in every case emit the plain `REQ_KEY`. -/
def send_req_key (env : Env) (st : St) (toN : Node) : Bool × St × List Effect :=
  let rk := env.REQ_KEY
  let me := env.myselfName
  let tn := toN.name
  let plain : Effect := .sendRequest toN.nexthop s!"{rk} {me} {tn}"
  if env.experimental ∧ OPTION_VERSION toN.options ≥ 2 then
    if toN.ecdsaKnown || env.readEcdsaPublicKey toN.name then
      let st := { st with nodes := updNode st.nodes toN.name { toN with ecdsaKnown := true } }
      (true, st, [plain])
    else
      let rp := env.REQ_PUBKEY
      (true, st, [.sendRequest toN.nexthop s!"{rk} {me} {tn} {rp}", plain])
  else
    (true, st, [plain])

/-- One iteration of `send_key_changed`'s loop over the connection tree
(lines 47-51): an active connection to a reachable node gets a fresh
`ANS_KEY`. -/
def sendKeyChangedStep (env : Env) (acc : St × List Effect) (c : Conn) :
    St × List Effect :=
  if c.active then
    match c.node with
    | none => acc
    | some nn =>
      match acc.1.nodes nn with
      | none => acc
      | some n =>
        if n.reachable then
          let r := send_ans_key env acc.1 n
          (r.2.1, acc.2 ++ r.2.2)
        else acc
  else acc

/-- `send_key_changed()` (lines 39-52): broadcast `KEY_CHANGED <nonce> <self>`
to everyone, then eagerly re-key every directly connected, active, reachable
neighbour via `send_ans_key`. The `rand()` nonce is passed in. -/
def send_key_changed (env : Env) (st : St) (nonce : Nat) : St × List Effect :=
  let kc := env.KEY_CHANGED
  let me := env.myselfName
  st.connections.foldl (sendKeyChangedStep env)
    (st, [.sendRequest "everyone" s!"{kc} {nonce} {me}"])

/-- `key_changed_h(c, request)` (lines 54-84): parse the origin name,
deduplicate against the seen-request cache, invalidate the origin's key and
flood the request onward unless in tunnelserver mode. -/
def parseKeyChanged (r : String) : Option String :=
  match tokensOf r with
  | t0 :: t1 :: name :: _ => if isDecTok t0 && isHexTok t1 then some name else none
  | _ => none

/-- The `KEY_CHANGED` handler itself; see `parseKeyChanged` for the
`sscanf` step. -/
def key_changed_h (env : Env) (st : St) (cName cHost : String) (request : String) :
    Bool × St × List Effect :=
  match parseKeyChanged request with
  | none => (false, st, [.log (.badRequest "KEY_CHANGED" cName cHost)])
  | some name =>
    let sr := seen_request st request
    if sr.1 then (true, sr.2, [])
    else
      let st := sr.2
      match st.nodes name with
      | none => (true, st, [.log (.originUnknown "KEY_CHANGED" cName cHost name)])
      | some n =>
        let n := { n with validkey := false, last_req_key := 0 }
        let st := { st with nodes := updNode st.nodes name n }
        if env.tunnelserver then (true, st, [])
        else (true, st, [.forwardRequest request])

/-- Parsed form of a `REQ_KEY` frame: `sscanf "%*d %s %s %d"`, at least the
two names required, `reqno` defaulting to 0 when absent or non-numeric. -/
structure ReqKeyMsg where
  fromName : String
  toName : String
  reqno : Int
deriving DecidableEq

/-- The `sscanf` step of `req_key_h` (line 134). -/
def parseReqKey (r : String) : Option ReqKeyMsg :=
  match tokensOf r with
  | t0 :: f :: t :: rest =>
    if isDecTok t0 then
      some ⟨f, t, (match rest with | t3 :: _ => (parseInt? t3).getD 0 | [] => 0)⟩
    else none
  | _ => none

/-- `req_key_ext_h(c, request, from, reqno)` (lines 96-126): the extended
public-key sub-protocol nested inside `REQ_KEY`. -/
def req_key_ext_h (env : Env) (st : St) (fromN : Node) (reqno : Int)
    (request : String) : Bool × St × List Effect :=
  if reqno = env.REQ_PUBKEY then
    let rk := env.REQ_KEY
    let me := env.myselfName
    let fn := fromN.name
    let ap := env.ANS_PUBKEY
    let pk := env.myselfEcdsaBase64
    (true, st, [.sendRequest fromN.nexthop s!"{rk} {me} {fn} {ap} {pk}"])
  else if reqno = env.ANS_PUBKEY then
    if fromN.ecdsaKnown || env.readEcdsaPublicKey fromN.name then
      let st := { st with nodes := updNode st.nodes fromN.name { fromN with ecdsaKnown := true } }
      (true, st, [.log (.ansPubkeyAlready fromN.name fromN.hostname)])
    else
      match tokensOf request with
      | _ :: _ :: _ :: _ :: pubkey :: _ =>
        if env.ecdsaSetBase64Ok pubkey then
          let st := { st with nodes := updNode st.nodes fromN.name { fromN with ecdsaKnown := true } }
          (true, st, [.log (.learnedPubkey fromN.name fromN.hostname),
            .appendConfigFile fromN.name "ECDSAPublicKey" pubkey])
        else
          (true, st, [.log (.badAnsPubkey fromN.name fromN.hostname)])
      | _ => (true, st, [.log (.badAnsPubkey fromN.name fromN.hostname)])
  else
    (true, st, [.log (.unknownExtended fromN.name fromN.hostname request)])

/-- `req_key_h(c, request)` (lines 128-182): validate and look up both
names, then serve locally (plain or extended), or relay to `to->nexthop`. -/
def req_key_h (env : Env) (st : St) (cName cHost : String) (request : String) :
    Bool × St × List Effect :=
  match parseReqKey request with
  | none => (false, st, [.log (.badRequest "REQ_KEY" cName cHost)])
  | some p =>
    if !(env.checkId p.fromName && env.checkId p.toName) then
      (false, st, [.log (.badName "REQ_KEY" cName cHost)])
    else
      match st.nodes p.fromName with
      | none => (true, st, [.log (.originUnknown "REQ_KEY" cName cHost p.fromName)])
      | some fromN =>
        match st.nodes p.toName with
        | none => (true, st, [.log (.destUnknown "REQ_KEY" cName cHost p.toName)])
        | some toN =>
          if p.toName = env.myselfName then
            if env.experimental ∧ p.reqno ≠ 0 then
              req_key_ext_h env st fromN p.reqno request
            else
              let r := send_ans_key env st fromN
              (true, r.2.1, r.2.2)
          else
            if env.tunnelserver then (true, st, [])
            else if !toN.reachable then
              (true, st, [.log (.destUnreachable "REQ_KEY" cName cHost p.toName)])
            else (true, st, [.sendRequest toN.nexthop request])

/-- Parsed form of an `ANS_KEY` frame (line 245): nine fields, the last two
(reflexive address and port) optional and defaulting to empty. -/
structure AnsKeyMsg where
  fromName : String
  toName : String
  key : String
  cipher : Int
  digest : Int
  maclength : Int
  compression : Int
  address : String
  port : String
deriving DecidableEq

/-- The `sscanf` step of `ans_key_h`: at least seven fields must match. -/
def parseAnsKey (r : String) : Option AnsKeyMsg :=
  match tokensOf r with
  | t0 :: f :: t :: k :: c1 :: d1 :: m1 :: cp1 :: rest =>
    if isDecTok t0 then
      match parseInt? c1, parseInt? d1, parseInt? m1, parseInt? cp1 with
      | some ci, some di, some ml, some cp =>
        some ⟨f, t, k, ci, di, ml, cp, rest.headD "", (rest.drop 1).headD ""⟩
      | _, _, _, _ => none
    else none
  | _ => none

/-- Lines 363-399 of `ans_key_h`: KDF with canonical role ordering. The
lexicographically smaller of our and the peer's name owns the first PRF
output block; the PRF seed is the literal
`"tinc UDP key expansion <lower> <higher>"`. Installs all four crypto
contexts and resets the inbound sequence counter and replay window.
Returns `none` when the PRF fails (the handler then returns success with
no key installed), else the updated node and the seed used. `kdfSeed`
builds the seed string of lines 373 and 377. -/
def kdfSeed (env : Env) (fromN : Node) : String :=
  if strLt env.myselfName fromN.name then
    "tinc UDP key expansion " ++ env.myselfName ++ " " ++ fromN.name
  else
    "tinc UDP key expansion " ++ fromN.name ++ " " ++ env.myselfName

/-- Lines 363-399 of `ans_key_h`, continued: the PRF expansion over the
seed of `kdfSeed`, block assignment by name order, and installation. -/
def modernKeyInstall (env : Env) (fromN : Node) (shared : List Nat) :
    Option (Node × String) :=
  let mykeylen := env.cipherKeylength env.myselfIncipherNid
  let hiskeylen := env.cipherKeylength fromN.outcipher.nid
  match env.prf shared (kdfSeed env fromN) (hiskeylen * 2 + mykeylen * 2) with
  | none => none
  | some out =>
    let mykey := if strLt env.myselfName fromN.name then out else out.drop (hiskeylen * 2)
    let hiskey := if strLt env.myselfName fromN.name then out.drop (mykeylen * 2) else out
    some ({ fromN with
      incipher := cipher_set_key env { nid := env.myselfIncipherNid, key := none } mykey false,
      indigest := digest_set_key
        { nid := env.myselfIndigestNid, maclength := env.myselfIndigestLen, key := none }
        (mykey.drop mykeylen) mykeylen,
      incompression := env.myselfIncompression,
      outcipher := cipher_set_key env fromN.outcipher hiskey true,
      outdigest := digest_set_key fromN.outdigest (hiskey.drop hiskeylen) hiskeylen,
      received_seqno := 0,
      late := if env.replaywin ≠ 0 then List.replicate env.replaywin false else fromN.late },
      kdfSeed env fromN)

/-- Lines 417-429 of `ans_key_h`: set `validkey`, reset `sent_seqno`, adopt
a supplied reflexive UDP address, and trigger PMTU discovery if enabled.
`update_node_udp` and `send_mtu_probe` are external (`net.c`); they are
recorded as effects. -/
def ansKeyFinalize (env : Env) (st : St) (fromN : Node) (p : AnsKeyMsg)
    (effs : List Effect) : Bool × St × List Effect :=
  let fromN := { fromN with validkey := true, sent_seqno := 0 }
  let st := { st with nodes := updNode st.nodes fromN.name fromN }
  let effs := effs ++
    (if p.address ≠ "" ∧ p.port ≠ "" then
      [.log (.usingReflexive fromN.name p.address p.port),
       .updateNodeUdp fromN.name p.address p.port]
     else []) ++
    (if fromN.options &&& env.OPTION_PMTU_DISCOVERY ≠ 0 then
      [.sendMtuProbe fromN.name] else [])
  (true, st, effs)

/-- Lines 351-429 of `ans_key_h`: the tail of the modern branch after
signature verification — promote a half-completed ECDH state by sending our
own `ANS_KEY` first when `from->ecdh` is absent (aborting on failure),
compute the shared secret (consuming the ECDH state), run the KDF install,
and finalize. `kb` is the base64-decoded key buffer. -/
def ansKeyModernFinish (env : Env) (st : St) (fromN : Node) (p : AnsKeyMsg)
    (kb : List Nat) : Bool × St × List Effect :=
  match (if fromN.ecdh then (true, fromN, st, ([] : List Effect))
         else send_ans_key_ecdh env st fromN) with
  | (false, _, st5, effs) => (true, st5, effs)
  | (true, fromN5, st5, effs) =>
    match env.ecdhComputeShared fromN5.name (kb.take env.ECDH_SIZE) with
    | none =>
      let fromN6 := { fromN5 with ecdh := false }
      (true, { st5 with nodes := updNode st5.nodes fromN6.name fromN6 }, effs)
    | some shared =>
      let fromN6 := { fromN5 with ecdh := false }
      match modernKeyInstall env fromN6 shared with
      | none =>
        (true, { st5 with nodes := updNode st5.nodes fromN6.name fromN6 }, effs)
      | some (fromN7, _) =>
        let st6 := { st5 with nodes := updNode st5.nodes fromN7.name fromN7,
                              mykeyused := true }
        ansKeyFinalize env st6 fromN7 p effs

/-- Lines 299-429 of `ans_key_h`: the terminal (`to == myself`) path —
algorithm validation, then the modern (ECDH/ECDSA) or legacy key
installation, then finalization. -/
def ans_key_terminal (env : Env) (st : St) (fromN : Node) (p : AnsKeyMsg) :
    Bool × St × List Effect :=
  if !env.cipherOpenOk p.cipher then
    (false, st, [.log (.unknownCipher fromN.name fromN.hostname)])
  else
  let fromN1 := { fromN with outcipher := { nid := p.cipher, key := none } }
  let st1 := { st with nodes := updNode st.nodes fromN1.name fromN1 }
  if !env.digestOpenOk p.digest p.maclength then
    (false, st1, [.log (.unknownDigest fromN1.name fromN1.hostname)])
  else
  let fromN2 := { fromN1 with
    outdigest := { nid := p.digest, maclength := p.maclength, key := none } }
  let st2 := { st1 with nodes := updNode st1.nodes fromN2.name fromN2 }
  if p.maclength ≠ digest_length env fromN2.outdigest then
    (false, st2, [.log (.bogusMaclength fromN2.name fromN2.hostname)])
  else if p.compression < 0 ∨ p.compression > 11 then
    (true, st2, [.log (.bogusCompression fromN2.name fromN2.hostname)])
  else
  let fromN3 := { fromN2 with outcompression := p.compression }
  let st3 := { st2 with nodes := updNode st2.nodes fromN3.name fromN3 }
  if env.experimental ∧ OPTION_VERSION fromN3.options ≥ 2 then
    if !(fromN3.ecdsaKnown || env.readEcdsaPublicKey fromN3.name) then
      (true, st3, [.log (.noEcdsaKey fromN3.name fromN3.hostname)])
    else
    let fromN4 := { fromN3 with ecdsaKnown := true }
    let st4 := { st3 with nodes := updNode st3.nodes fromN4.name fromN4 }
    let siglen := env.ecdsaSizeOf fromN4.name
    let kb := env.b64decode p.key
    if kb.length ≠ env.ECDH_SIZE + siglen then
      (true, st4, [.log (.wrongKeylengthModern fromN4.name fromN4.hostname)])
    else if env.ECDH_SHARED_SIZE < env.cipherKeylength fromN4.outcipher.nid then
      (true, st4, [.log (.ecdhTooShort fromN4.name)])
    else if !env.ecdsaVerify fromN4.name (kb.take env.ECDH_SIZE) (kb.drop env.ECDH_SIZE) then
      (true, st4, [.log (.possibleIntruder fromN4.name fromN4.hostname
        "invalid ECDSA signature")])
    else
    ansKeyModernFinish env st4 fromN4 p kb
  else
    let kb := env.hex2bin p.key
    if kb.length ≠ env.cipherKeylength fromN3.outcipher.nid then
      (true, st3, [.log (.wrongKeylength fromN3.name fromN3.hostname)])
    else
      let fromN4 := { fromN3 with
        outcipher := cipher_set_key env fromN3.outcipher kb true,
        outdigest := digest_set_key fromN3.outdigest kb kb.length }
      let st4 := { st3 with nodes := updNode st3.nodes fromN4.name fromN4 }
      ansKeyFinalize env st4 fromN4 p []

/-- `ans_key_h(c, request)` (lines 236-429): parse, validate names, look up
both nodes, then either relay toward `to->nexthop` (appending `from`'s
reflexive UDP address when the frame carries none and the address family is
known) or run the terminal path. -/
def ans_key_h (env : Env) (st : St) (cName cHost : String) (request : String) :
    Bool × St × List Effect :=
  match parseAnsKey request with
  | none => (false, st, [.log (.badRequest "ANS_KEY" cName cHost)])
  | some p =>
    if !(env.checkId p.fromName && env.checkId p.toName) then
      (false, st, [.log (.badName "ANS_KEY" cName cHost)])
    else
      match st.nodes p.fromName with
      | none => (true, st, [.log (.originUnknown "ANS_KEY" cName cHost p.fromName)])
      | some fromN =>
        match st.nodes p.toName with
        | none => (true, st, [.log (.destUnknown "ANS_KEY" cName cHost p.toName)])
        | some toN =>
          if p.toName ≠ env.myselfName then
            if env.tunnelserver then (true, st, [])
            else if !toN.reachable then
              (true, st, [.log (.destUnreachable "ANS_KEY" cName cHost p.toName)])
            else if p.address = "" ∧ fromN.address.family ≠ AF_UNSPEC then
              let ap := env.sockaddr2str fromN.address
              (true, st, [.log (.appendingReflexive fromN.name toN.name),
                .sendRequest toN.nexthop (request ++ " " ++ ap.1 ++ " " ++ ap.2)])
            else (true, st, [.sendRequest toN.nexthop request])
          else
            ans_key_terminal env st fromN p

/-- Whether an effect is the "Possible intruder" warning. -/
def Effect.isIntruder : Effect → Bool
  | .log (.possibleIntruder _ _ _) => true
  | _ => false

/-- True when an effect list contains no "Possible intruder" warning. -/
def noIntruder (effs : List Effect) : Bool := effs.all (fun e => !e.isIntruder)

/-- A small concrete environment used to exercise the handlers on closed
inputs: cipher NIDs 91 (keylength 3) and 92 (keylength 2) are known, digest
NIDs 64 and 65 are known with natural length 4, names are valid when
non-empty, base64 token "GOODKEY" decodes to a 6-byte point+signature whose
signature part `[7, 7]` verifies, and the PRF output is `[100, 101, ...]`. -/
def envT : Env := {
  experimental := true
  tunnelserver := false
  replaywin := 4
  myselfName := "a"
  myselfIncipherNid := 91
  myselfIndigestNid := 64
  myselfIndigestLen := 4
  myselfIncompression := 0
  myselfEcdsaBase64 := "PKA"
  OPTION_PMTU_DISCOVERY := 2
  KEY_CHANGED := 13
  REQ_KEY := 15
  ANS_KEY := 16
  REQ_PUBKEY := 1
  ANS_PUBKEY := 2
  ECDH_SIZE := 4
  ECDH_SHARED_SIZE := 8
  cipherOpenOk := fun n => n = 91 || n = 92
  cipherKeylength := fun n => if n = 91 then 3 else if n = 92 then 2 else 0
  digestOpenOk := fun n _ => n = 64 || n = 65
  digestLengthCtx := fun _ m => if 0 ≤ m ∧ m ≤ 4 then m else 4
  checkId := fun s => s ≠ ""
  readEcdsaPublicKey := fun _ => false
  ecdsaSizeOf := fun _ => 2
  ecdsaVerify := fun _ _ s => s = [7, 7]
  ecdsaSetBase64Ok := fun _ => true
  ecdhGeneratePublic := fun _ => some [9, 9, 9, 9]
  ecdsaSign := fun _ => some [5, 5]
  ecdhComputeShared := fun _ _ => some [3, 3, 3, 3, 3, 3, 3, 3]
  prf := fun _ _ n => some ((List.range n).map (fun i => i + 100))
  b64decode := fun s => if s = "GOODKEY" then [1, 2, 3, 4, 7, 7] else [0]
  b64encode := fun _ => "B64"
  hex2bin := fun s => if s = "aabbcc" then [170, 187, 204] else []
  bin2hex := fun _ => "HEX"
  randomize := fun n => List.replicate n 42
  sockaddr2str := fun a => (a.addr, a.port) }

/-- A concrete node record with the given name and options word, with a
known UDP address, stale counters and a half-open ECDH exchange. -/
def mkNode (nm : String) (opts : Nat) : Node := {
  name := nm
  hostname := nm ++ ".example"
  options := opts
  reachable := true
  validkey := false
  last_req_key := 7
  nexthop := nm
  incipher := { nid := 91 }
  indigest := { nid := 64, maclength := 4 }
  incompression := 0
  outcipher := { nid := 0 }
  outdigest := { nid := 0, maclength := 0 }
  outcompression := 5
  received_seqno := 10
  sent_seqno := 11
  late := [true, true, false, true]
  address := { family := 2, addr := "203.0.113.5", port := "1655" }
  ecdh := true
  ecdsaKnown := true }

/-- A concrete state: the node table holds `a` (myself, legacy options) and
`b` (protocol version 2 in the top option byte); empty request cache. -/
def stT : St := {
  nodes := fun m => if m = "a" then some (mkNode "a" 0)
    else if m = "b" then some (mkNode "b" (2 * 16777216))
    else none
  seen := []
  mykeyused := false
  connections := [] }

/-- The larger-name side's environment for the KDF symmetry check: node
`b`, advertising cipher NID 92 as its inbound cipher. -/
def envTB : Env := { envT with myselfName := "b", myselfIncipherNid := 92 }

/-- Node `b` as recorded at `a` after algorithm validation: its `outcipher`
was opened with `b`'s advertised NID 92. -/
def nodeBatA : Node := { mkNode "b" (2 * 16777216) with outcipher := { nid := 92 } }

/-- Node `a` as recorded at `b` after algorithm validation: its `outcipher`
was opened with `a`'s advertised NID 91. -/
def nodeAatB : Node := { mkNode "a" 0 with outcipher := { nid := 91 } }

/-- A variant of `envT` whose token "BADKEY6" decodes to a correct-length
point+signature buffer whose signature `[9, 9]` does not verify. -/
def envI : Env :=
  { envT with b64decode := fun s => if s = "BADKEY6" then [1, 2, 3, 4, 9, 9] else [0] }

/-- C4 counterexample: a well-formed `ANS_KEY` addressed to self whose
advertised cipher NID (99) is unknown makes `ans_key_h` return failure
(hard error: the dispatcher tears the connection down), not success as the
claim states. -/
theorem C4_counterexample :
    (parseAnsKey "16 b a GOODKEY 99 64 4 0").isSome = true ∧
    envT.cipherOpenOk 99 = false ∧
    (ans_key_h envT stT "b" "bh" "16 b a GOODKEY 99 64 4 0").1 = false ∧
    (ans_key_h envT stT "b" "bh" "16 b a GOODKEY 99 64 4 0").2.2 =
      [Effect.log (LogMsg.unknownCipher "b" "b.example")] :=
  ⟨by decide, by decide, by decide, by decide⟩

/-- C4 amended: for a well-formed `ANS_KEY` addressed to self, an unknown
cipher NID, an unknown digest NID, or a MAC length differing from what the
digest layer reports are all hard protocol errors — `ans_key_h` logs and
returns failure, so the dispatcher tears the connection down. Only the
bogus-compression check among the validation steps is a soft error: it logs
and returns success, keeping the connection up. -/
theorem C4_validation_severity
    (env : Env) (st : St) (cn ch r : String) (p : AnsKeyMsg) (fromN toN : Node)
    (hp : parseAnsKey r = some p)
    (hid : (env.checkId p.fromName && env.checkId p.toName) = true)
    (hf : st.nodes p.fromName = some fromN)
    (ht : st.nodes p.toName = some toN)
    (hself : p.toName = env.myselfName) :
    (env.cipherOpenOk p.cipher = false →
      ans_key_h env st cn ch r =
        (false, st, [Effect.log (LogMsg.unknownCipher fromN.name fromN.hostname)])) ∧
    (env.cipherOpenOk p.cipher = true → env.digestOpenOk p.digest p.maclength = false →
      (ans_key_h env st cn ch r).1 = false ∧
      (ans_key_h env st cn ch r).2.2 =
        [Effect.log (LogMsg.unknownDigest fromN.name fromN.hostname)]) ∧
    (env.cipherOpenOk p.cipher = true → env.digestOpenOk p.digest p.maclength = true →
      p.maclength ≠ env.digestLengthCtx p.digest p.maclength →
      (ans_key_h env st cn ch r).1 = false ∧
      (ans_key_h env st cn ch r).2.2 =
        [Effect.log (LogMsg.bogusMaclength fromN.name fromN.hostname)]) ∧
    (env.cipherOpenOk p.cipher = true → env.digestOpenOk p.digest p.maclength = true →
      p.maclength = env.digestLengthCtx p.digest p.maclength →
      (p.compression < 0 ∨ p.compression > 11) →
      (ans_key_h env st cn ch r).1 = true ∧
      (ans_key_h env st cn ch r).2.2 =
        [Effect.log (LogMsg.bogusCompression fromN.name fromN.hostname)]) := by
  have hne : ¬(p.toName ≠ env.myselfName) := by simp [hself]
  refine ⟨?_, ?_, ?_, ?_⟩
  · intro hc
    simp [ans_key_h, hp, hid, hf, ht, hne, ans_key_terminal, hc]
  · intro hc hd
    simp [ans_key_h, hp, hid, hf, ht, hne, ans_key_terminal, hc, hd]
  · intro hc hd hm
    simp [ans_key_h, hp, hid, hf, ht, hne, ans_key_terminal, hc, hd, digest_length, hm]
  · intro hc hd hm hcomp
    simp [ans_key_h, hp, hid, hf, ht, hne, ans_key_terminal, hc, hd, digest_length, hm.symm, hcomp]

/-- C4 witness: the amended theorem applied at the concrete unknown-cipher
input of the counterexample. -/
theorem C4_validation_severity_witness :
    ans_key_h envT stT "b" "bh" "16 b a GOODKEY 99 64 4 0" =
      (false, stT, [Effect.log (LogMsg.unknownCipher (mkNode "b" (2 * 16777216)).name
        (mkNode "b" (2 * 16777216)).hostname)]) :=
  (C4_validation_severity envT stT "b" "bh" "16 b a GOODKEY 99 64 4 0"
    ⟨"b", "a", "GOODKEY", 99, 64, 4, 0, "", ""⟩
    (mkNode "b" (2 * 16777216)) (mkNode "a" 0)
    (by decide) (by decide) (by decide) (by decide) (by decide)).1 (by decide)

/-- C8: on the legacy terminal path of `ans_key_h` (validation passed,
peer not in modern mode), a hex-decoded key of the wrong length is logged
and the handler returns success with `validkey` unchanged; a key of exactly
`cipher_keylength(from.outcipher)` bytes is installed as `from.outcipher`'s
encrypt-direction key and `from.outdigest`'s MAC key, after which
`from.status.validkey = true` and `from.sent_seqno = 0`. -/
theorem C8_legacy_key_install
    (env : Env) (st : St) (cn ch r : String) (p : AnsKeyMsg) (fromN toN : Node)
    (hp : parseAnsKey r = some p)
    (hid : (env.checkId p.fromName && env.checkId p.toName) = true)
    (hf : st.nodes p.fromName = some fromN)
    (ht : st.nodes p.toName = some toN)
    (hself : p.toName = env.myselfName)
    (hname : fromN.name = p.fromName)
    (hc : env.cipherOpenOk p.cipher = true)
    (hd : env.digestOpenOk p.digest p.maclength = true)
    (hm : p.maclength = env.digestLengthCtx p.digest p.maclength)
    (hcomp0 : 0 ≤ p.compression) (hcomp1 : p.compression ≤ 11)
    (hlegacy : ¬(env.experimental = true ∧ OPTION_VERSION fromN.options ≥ 2)) :
    ((env.hex2bin p.key).length ≠ env.cipherKeylength p.cipher →
      (ans_key_h env st cn ch r).1 = true ∧
      (ans_key_h env st cn ch r).2.2 =
        [Effect.log (LogMsg.wrongKeylength fromN.name fromN.hostname)] ∧
      ∃ n', (ans_key_h env st cn ch r).2.1.nodes p.fromName = some n' ∧
        n'.validkey = fromN.validkey) ∧
    ((env.hex2bin p.key).length = env.cipherKeylength p.cipher →
      (ans_key_h env st cn ch r).1 = true ∧
      ∃ n', (ans_key_h env st cn ch r).2.1.nodes p.fromName = some n' ∧
        n'.outcipher = { nid := p.cipher, key := some (env.hex2bin p.key, true) } ∧
        n'.outdigest = { nid := p.digest, maclength := p.maclength,
                         key := some (env.hex2bin p.key) } ∧
        n'.validkey = true ∧ n'.sent_seqno = 0) := by
  have hne : ¬(p.toName ≠ env.myselfName) := by simp [hself]
  have hcompn : ¬(p.compression < 0 ∨ p.compression > 11) := by omega
  constructor
  · intro hk
    refine ⟨?_, ?_, ?_⟩ <;>
      simp [ans_key_h, hp, hid, hf, ht, hne, ans_key_terminal, hc, hd, digest_length,
        hm.symm, hcompn, hlegacy, hk, updNode, hname]
  · intro hk
    have htake : (env.hex2bin p.key).take (env.cipherKeylength p.cipher) =
        env.hex2bin p.key := by
      rw [← hk]; exact List.take_length _
    refine ⟨?_, ?_⟩ <;>
      simp [ans_key_h, hp, hid, hf, ht, hne, ans_key_terminal, hc, hd, digest_length,
        hm.symm, hcompn, hlegacy, hk, updNode, hname, ansKeyFinalize,
        cipher_set_key, digest_set_key, htake, List.take_length]

/-- C8 witness: the legacy install applied to a concrete frame carrying the
3-byte key `aa bb cc` for cipher NID 91 (keylength 3). -/
theorem C8_legacy_key_install_witness :
    (ans_key_h { envT with experimental := false } stT "b" "bh"
        "16 b a aabbcc 91 64 4 0").1 = true ∧
    ∃ n', (ans_key_h { envT with experimental := false } stT "b" "bh"
        "16 b a aabbcc 91 64 4 0").2.1.nodes "b" = some n' ∧
      n'.outcipher = { nid := 91, key := some ([170, 187, 204], true) } ∧
      n'.outdigest = { nid := 64, maclength := 4, key := some [170, 187, 204] } ∧
      n'.validkey = true ∧ n'.sent_seqno = 0 :=
  (C8_legacy_key_install { envT with experimental := false } stT "b" "bh"
    "16 b a aabbcc 91 64 4 0" ⟨"b", "a", "aabbcc", 91, 64, 4, 0, "", ""⟩
    (mkNode "b" (2 * 16777216)) (mkNode "a" 0)
    (by decide) (by decide) (by decide) (by decide) (by decide) (by decide)
    (by decide) (by decide) (by decide) (by decide) (by decide) (by decide)).2 (by decide)

/-- C6: relaying an `ANS_KEY` for a reachable third party (tunnelserver
off) forwards on `to.nexthop`'s connection, appending `from`'s current UDP
address and port as two extra tokens exactly when the frame carries no
reflexive address and `from.address` has a known (non-`AF_UNSPEC`) family,
and forwarding the frame verbatim otherwise; the relay path — like the
`REQ_KEY` relay path — leaves the whole state (hence every node record)
untouched. -/
theorem C6_relay_forwarding
    (env : Env) (st : St) (cn ch r : String) (p : AnsKeyMsg) (fromN toN : Node)
    (hp : parseAnsKey r = some p)
    (hid : (env.checkId p.fromName && env.checkId p.toName) = true)
    (hf : st.nodes p.fromName = some fromN)
    (ht : st.nodes p.toName = some toN)
    (hnotself : p.toName ≠ env.myselfName)
    (hts : env.tunnelserver = false)
    (hreach : toN.reachable = true) :
    (ans_key_h env st cn ch r).2.1 = st ∧
    (ans_key_h env st cn ch r).1 = true ∧
    (ans_key_h env st cn ch r).2.2 =
      (if p.address = "" ∧ fromN.address.family ≠ AF_UNSPEC then
        [Effect.log (LogMsg.appendingReflexive fromN.name toN.name),
         Effect.sendRequest toN.nexthop
           (r ++ " " ++ (env.sockaddr2str fromN.address).1 ++ " " ++
             (env.sockaddr2str fromN.address).2)]
       else [Effect.sendRequest toN.nexthop r]) ∧
    (∀ (r2 : String) (q : ReqKeyMsg) (fromN2 toN2 : Node),
      parseReqKey r2 = some q →
      (env.checkId q.fromName && env.checkId q.toName) = true →
      st.nodes q.fromName = some fromN2 →
      st.nodes q.toName = some toN2 →
      q.toName ≠ env.myselfName →
      toN2.reachable = true →
      (req_key_h env st cn ch r2).2.1 = st ∧
      (req_key_h env st cn ch r2).2.2 = [Effect.sendRequest toN2.nexthop r2]) := by
  refine ⟨?_, ?_, ?_, ?_⟩
  · by_cases hA : p.address = "" ∧ fromN.address.family ≠ AF_UNSPEC <;>
      simp [ans_key_h, hp, hid, hf, ht, hnotself, hts, hreach, hA]
  · by_cases hA : p.address = "" ∧ fromN.address.family ≠ AF_UNSPEC <;>
      simp [ans_key_h, hp, hid, hf, ht, hnotself, hts, hreach, hA]
  · by_cases hA : p.address = "" ∧ fromN.address.family ≠ AF_UNSPEC <;>
      simp [ans_key_h, hp, hid, hf, ht, hnotself, hts, hreach, hA]
  · intro r2 q fromN2 toN2 hq hid2 hf2 ht2 hns2 hre2
    constructor <;> simp [req_key_h, hq, hid2, hf2, ht2, hns2, hts, hre2]

/-- C6 witness: a concrete `ANS_KEY a → b` frame without reflexive tokens,
relayed by a third node with `a`'s UDP address appended, and a concrete
`REQ_KEY a → b` frame relayed verbatim; the state is unchanged in both. -/
theorem C6_relay_forwarding_witness :
    (ans_key_h envT stT "c" "ch" "16 a b GOODKEY 92 64 4 0").2.1 = stT ∧
    (ans_key_h envT stT "c" "ch" "16 a b GOODKEY 92 64 4 0").1 = true ∧
    (ans_key_h envT stT "c" "ch" "16 a b GOODKEY 92 64 4 0").2.2 =
      (if ("" : String) = "" ∧ (mkNode "a" 0).address.family ≠ AF_UNSPEC then
        [Effect.log (LogMsg.appendingReflexive (mkNode "a" 0).name (mkNode "b" (2 * 16777216)).name),
         Effect.sendRequest (mkNode "b" (2 * 16777216)).nexthop
           ("16 a b GOODKEY 92 64 4 0" ++ " " ++
             (envT.sockaddr2str (mkNode "a" 0).address).1 ++ " " ++
             (envT.sockaddr2str (mkNode "a" 0).address).2)]
       else [Effect.sendRequest (mkNode "b" (2 * 16777216)).nexthop "16 a b GOODKEY 92 64 4 0"]) ∧
    (req_key_h envT stT "c" "ch" "15 a b").2.1 = stT ∧
    (req_key_h envT stT "c" "ch" "15 a b").2.2 =
      [Effect.sendRequest (mkNode "b" (2 * 16777216)).nexthop "15 a b"] := by
  have h := C6_relay_forwarding envT stT "c" "ch" "16 a b GOODKEY 92 64 4 0"
    ⟨"a", "b", "GOODKEY", 92, 64, 4, 0, "", ""⟩ (mkNode "a" 0) (mkNode "b" (2 * 16777216))
    (by decide) (by decide) (by decide) (by decide) (by decide) (by decide) (by decide)
  have h2 := h.2.2.2 "15 a b" ⟨"a", "b", 0⟩ (mkNode "a" 0) (mkNode "b" (2 * 16777216))
    (by decide) (by decide) (by decide) (by decide) (by decide) (by decide)
  exact ⟨h.1, h.2.1, h.2.2.1, h2.1, h2.2⟩

/-- Helper: once a parsed `KEY_CHANGED` request is in the seen-request
cache, delivering it again returns success immediately with no state
change and no effects. -/
theorem key_changed_dup_noop (env : Env) (st2 : St) (cn2 ch2 r name : String)
    (hp : parseKeyChanged r = some name) (hmem : r ∈ st2.seen) :
    key_changed_h env st2 cn2 ch2 r = (true, st2, []) := by
  simp [key_changed_h, hp, seen_request, hmem]

/-- C5: `key_changed_h` returns success immediately on a request already in
the seen-request cache, with no state change and no forwarding; on a
first-seen request with known origin it clears the origin's `validkey` and
`last_req_key` and forwards the request unless in tunnelserver mode; every
parsed request ends up in the cache, so a second delivery of the same frame
is a no-op — a given `KEY_CHANGED` frame is forwarded at most once per
node no matter how many times it is received. -/
theorem C5_key_changed_dedup_flood
    (env : Env) (st : St) (cn ch r : String) (name : String)
    (hp : parseKeyChanged r = some name) :
    (r ∈ st.seen → key_changed_h env st cn ch r = (true, st, [])) ∧
    (r ∉ st.seen → ∀ n, st.nodes name = some n →
      (key_changed_h env st cn ch r).1 = true ∧
      (key_changed_h env st cn ch r).2.1.seen = r :: st.seen ∧
      (key_changed_h env st cn ch r).2.1.nodes =
        updNode st.nodes name { n with validkey := false, last_req_key := 0 } ∧
      (key_changed_h env st cn ch r).2.2 =
        (if env.tunnelserver then [] else [Effect.forwardRequest r])) ∧
    r ∈ (key_changed_h env st cn ch r).2.1.seen ∧
    (∀ cn2 ch2, key_changed_h env (key_changed_h env st cn ch r).2.1 cn2 ch2 r =
      (true, (key_changed_h env st cn ch r).2.1, [])) := by
  have hmem : r ∈ (key_changed_h env st cn ch r).2.1.seen := by
    by_cases hseen : r ∈ st.seen
    · simp [key_changed_h, hp, seen_request, hseen]
    · cases hn : st.nodes name <;>
        by_cases hts : env.tunnelserver <;>
        simp [key_changed_h, hp, seen_request, hseen, hn, hts]
  refine ⟨?_, ?_, hmem, ?_⟩
  · intro hseen
    simp [key_changed_h, hp, seen_request, hseen]
  · intro hseen n hn
    by_cases hts : env.tunnelserver <;>
      refine ⟨?_, ?_, ?_, ?_⟩ <;>
      simp [key_changed_h, hp, seen_request, hseen, hn, hts]
  · intro cn2 ch2
    exact key_changed_dup_noop env _ cn2 ch2 r name hp hmem

/-- C5 witness: a concrete first-seen `KEY_CHANGED` for known origin `b` is
forwarded and invalidates `b`'s key; delivering the identical frame again
is a pure no-op. -/
theorem C5_key_changed_dedup_flood_witness :
    (key_changed_h envT stT "b" "bh" "13 1f b").1 = true ∧
    (key_changed_h envT stT "b" "bh" "13 1f b").2.1.seen = ["13 1f b"] ∧
    (key_changed_h envT stT "b" "bh" "13 1f b").2.1.nodes =
      updNode stT.nodes "b"
        { mkNode "b" (2 * 16777216) with validkey := false, last_req_key := 0 } ∧
    (key_changed_h envT stT "b" "bh" "13 1f b").2.2 =
      (if envT.tunnelserver then [] else [Effect.forwardRequest "13 1f b"]) ∧
    (key_changed_h envT (key_changed_h envT stT "b" "bh" "13 1f b").2.1 "c" "ch" "13 1f b" =
      (true, (key_changed_h envT stT "b" "bh" "13 1f b").2.1, [])) := by
  have h := C5_key_changed_dedup_flood envT stT "b" "bh" "13 1f b" "b" (by decide)
  have h2 := h.2.1 (by decide) (mkNode "b" (2 * 16777216)) (by decide)
  exact ⟨h2.1, h2.2.1, h2.2.2.1, h2.2.2.2, h.2.2.2 "c" "ch"⟩

/-- C9: a first-seen `KEY_CHANGED` whose origin is not in the node table is
logged and accepted without forwarding, but the frame has already been
inserted into the seen-request cache, so any re-delivery of the same frame
— to any later state whose cache still holds it — is a permanent no-op. -/
theorem C9_key_changed_unknown_origin
    (env : Env) (st : St) (cn ch r name : String)
    (hp : parseKeyChanged r = some name)
    (hnew : r ∉ st.seen)
    (hnone : st.nodes name = none) :
    key_changed_h env st cn ch r =
      (true, { st with seen := r :: st.seen },
        [Effect.log (LogMsg.originUnknown "KEY_CHANGED" cn ch name)]) ∧
    (∀ (st2 : St) (cn2 ch2 : String), r ∈ st2.seen →
      key_changed_h env st2 cn2 ch2 r = (true, st2, [])) := by
  constructor
  · simp [key_changed_h, hp, seen_request, hnew, hnone]
  · intro st2 cn2 ch2 hmem
    exact key_changed_dup_noop env st2 cn2 ch2 r name hp hmem

/-- C9 witness: a `KEY_CHANGED` naming the unknown origin `zz` is accepted
with only a log, and the same frame redelivered to the resulting state is a
no-op. -/
theorem C9_key_changed_unknown_origin_witness :
    key_changed_h envT stT "b" "bh" "13 1f zz" =
      (true, { stT with seen := ["13 1f zz"] },
        [Effect.log (LogMsg.originUnknown "KEY_CHANGED" "b" "bh" "zz")]) ∧
    key_changed_h envT { stT with seen := ["13 1f zz"] } "c" "ch" "13 1f zz" =
      (true, { stT with seen := ["13 1f zz"] }, []) := by
  have h := C9_key_changed_unknown_origin envT stT "b" "bh" "13 1f zz" "zz"
    (by decide) (by decide) (by decide)
  exact ⟨h.1, h.2 { stT with seen := ["13 1f zz"] } "c" "ch" (by decide)⟩

/-- C7 counterexample: with the global `experimental` flag off, a
well-formed `REQ_KEY` addressed to self from a modern origin (protocol
version 2 in its options) with `reqno = 1` is answered with
`send_ans_key(from)` — the handler's observable behaviour differs from the
extended sub-protocol handler's, refuting the claim that modern mode of the
origin plus nonzero reqno is what selects the sub-protocol. -/
theorem C7_counterexample :
    OPTION_VERSION (mkNode "b" (2 * 16777216)).options ≥ 2 ∧
    parseReqKey "15 b a 1" = some ⟨"b", "a", 1⟩ ∧
    (req_key_h { envT with experimental := false } stT "b" "bh" "15 b a 1").2.2 =
      (send_ans_key { envT with experimental := false } stT
        (mkNode "b" (2 * 16777216))).2.2 ∧
    (req_key_h { envT with experimental := false } stT "b" "bh" "15 b a 1").2.2 ≠
      (req_key_ext_h { envT with experimental := false } stT
        (mkNode "b" (2 * 16777216)) 1 "15 b a 1").2.2 :=
  ⟨by decide, by decide, by decide, by decide⟩

/-- C7 amended: for a well-formed `REQ_KEY` addressed to self with known
origin, `req_key_h` enters the extended sub-protocol handler if and only if
the global `experimental` flag is set and the parsed `reqno` is non-zero —
the origin's protocol version field is not consulted; in all other cases it
replies with `send_ans_key(from)`. -/
theorem C7_req_key_dispatch
    (env : Env) (st : St) (cn ch r : String) (q : ReqKeyMsg) (fromN toN : Node)
    (hp : parseReqKey r = some q)
    (hid : (env.checkId q.fromName && env.checkId q.toName) = true)
    (hf : st.nodes q.fromName = some fromN)
    (ht : st.nodes q.toName = some toN)
    (hself : q.toName = env.myselfName) :
    (env.experimental = true ∧ q.reqno ≠ 0 →
      req_key_h env st cn ch r = req_key_ext_h env st fromN q.reqno r) ∧
    (¬(env.experimental = true ∧ q.reqno ≠ 0) →
      req_key_h env st cn ch r =
        (true, (send_ans_key env st fromN).2.1, (send_ans_key env st fromN).2.2)) := by
  have hid0 := Bool.and_eq_true _ _ |>.mp hid
  have hid1 : env.checkId q.fromName = true := hid0.1
  have hid2 : env.checkId env.myselfName = true := by
    have := hid0.2; rwa [hself] at this
  have ht2 : st.nodes env.myselfName = some toN := by rwa [hself] at ht
  constructor
  · intro hmod
    simp [req_key_h, hp, hid1, hid2, hf, ht2, hself, hmod]
  · intro hmod
    simp [req_key_h, hp, hid1, hid2, hf, ht2, hself, hmod]

/-- C7 witness: with `experimental` on and `reqno = 1`, the handler's run
coincides with the extended handler's, even though origin `a`'s record at
`b`... here origin `b` is modern; the dispatch is decided by the flag and
the reqno alone. -/
theorem C7_req_key_dispatch_witness :
    req_key_h envT stT "b" "bh" "15 b a 1" =
      req_key_ext_h envT stT (mkNode "b" (2 * 16777216)) 1 "15 b a 1" :=
  (C7_req_key_dispatch envT stT "b" "bh" "15 b a 1" ⟨"b", "a", 1⟩
    (mkNode "b" (2 * 16777216)) (mkNode "a" 0)
    (by decide) (by decide) (by decide) (by decide) (by decide)).1 ⟨rfl, by decide⟩

/-- C10 counterexample: on the bogus-compression soft drop (compression 12)
`from.outcipher`/`from.outdigest` have indeed been reopened with the
frame's algorithms, but `from.outcompression` keeps its prior value 5 — the
check precedes the assignment, so the claim that `outcompression` is
overwritten on this error path is false. -/
theorem C10_counterexample :
    (ans_key_h envT stT "b" "bh" "16 b a GOODKEY 92 64 4 12").1 = true ∧
    (ans_key_h envT stT "b" "bh" "16 b a GOODKEY 92 64 4 12").2.2 =
      [Effect.log (LogMsg.bogusCompression "b" "b.example")] ∧
    ((ans_key_h envT stT "b" "bh" "16 b a GOODKEY 92 64 4 12").2.1.nodes "b").map
      (fun n => (n.outcipher, n.outdigest, n.outcompression)) =
      some ({ nid := 92, key := none }, { nid := 64, maclength := 4, key := none }, 5) ∧
    (5 : Int) ≠ 12 :=
  ⟨by decide, by decide, by decide, by decide⟩

/-- C10 amended: when `ans_key_h` drops a terminal `ANS_KEY` as a soft
error after opening the advertised algorithms, the node record is already
mutated even though the handler returns success and `validkey` is not set:
on the bogus-compression drop `from.outcipher` and `from.outdigest` have
been reopened (keys cleared) while `from.outcompression` keeps its prior
value; on the modern-path soft errors (missing ECDSA public key, wrong
decoded key length, invalid signature, failed shared-secret computation)
the reopened contexts remain and `from.outcompression` has additionally
been overwritten with the frame's value. The drop is not atomic. -/
theorem C10_soft_error_mutation
    (env : Env) (st : St) (cn ch r : String) (p : AnsKeyMsg) (fromN toN : Node)
    (hp : parseAnsKey r = some p)
    (hid : (env.checkId p.fromName && env.checkId p.toName) = true)
    (hf : st.nodes p.fromName = some fromN)
    (ht : st.nodes p.toName = some toN)
    (hself : p.toName = env.myselfName)
    (hname : fromN.name = p.fromName)
    (hc : env.cipherOpenOk p.cipher = true)
    (hd : env.digestOpenOk p.digest p.maclength = true)
    (hm : p.maclength = env.digestLengthCtx p.digest p.maclength) :
    ((p.compression < 0 ∨ p.compression > 11) →
      (ans_key_h env st cn ch r).1 = true ∧
      ∃ n', (ans_key_h env st cn ch r).2.1.nodes p.fromName = some n' ∧
        n'.outcipher = { nid := p.cipher, key := none } ∧
        n'.outdigest = { nid := p.digest, maclength := p.maclength, key := none } ∧
        n'.outcompression = fromN.outcompression ∧
        n'.validkey = fromN.validkey) ∧
    (0 ≤ p.compression → p.compression ≤ 11 →
     env.experimental = true → OPTION_VERSION fromN.options ≥ 2 →
     (fromN.ecdsaKnown || env.readEcdsaPublicKey fromN.name) = false →
      (ans_key_h env st cn ch r).1 = true ∧
      ∃ n', (ans_key_h env st cn ch r).2.1.nodes p.fromName = some n' ∧
        n'.outcipher = { nid := p.cipher, key := none } ∧
        n'.outdigest = { nid := p.digest, maclength := p.maclength, key := none } ∧
        n'.outcompression = p.compression ∧
        n'.validkey = fromN.validkey) ∧
    (0 ≤ p.compression → p.compression ≤ 11 →
     env.experimental = true → OPTION_VERSION fromN.options ≥ 2 →
     (fromN.ecdsaKnown || env.readEcdsaPublicKey fromN.name) = true →
     (env.b64decode p.key).length ≠ env.ECDH_SIZE + env.ecdsaSizeOf fromN.name →
      (ans_key_h env st cn ch r).1 = true ∧
      ∃ n', (ans_key_h env st cn ch r).2.1.nodes p.fromName = some n' ∧
        n'.outcipher = { nid := p.cipher, key := none } ∧
        n'.outdigest = { nid := p.digest, maclength := p.maclength, key := none } ∧
        n'.outcompression = p.compression ∧
        n'.validkey = fromN.validkey) ∧
    (0 ≤ p.compression → p.compression ≤ 11 →
     env.experimental = true → OPTION_VERSION fromN.options ≥ 2 →
     (fromN.ecdsaKnown || env.readEcdsaPublicKey fromN.name) = true →
     (env.b64decode p.key).length = env.ECDH_SIZE + env.ecdsaSizeOf fromN.name →
     ¬ env.ECDH_SHARED_SIZE < env.cipherKeylength p.cipher →
     env.ecdsaVerify fromN.name ((env.b64decode p.key).take env.ECDH_SIZE)
       ((env.b64decode p.key).drop env.ECDH_SIZE) = false →
      (ans_key_h env st cn ch r).1 = true ∧
      ∃ n', (ans_key_h env st cn ch r).2.1.nodes p.fromName = some n' ∧
        n'.outcipher = { nid := p.cipher, key := none } ∧
        n'.outdigest = { nid := p.digest, maclength := p.maclength, key := none } ∧
        n'.outcompression = p.compression ∧
        n'.validkey = fromN.validkey) ∧
    (0 ≤ p.compression → p.compression ≤ 11 →
     env.experimental = true → OPTION_VERSION fromN.options ≥ 2 →
     (fromN.ecdsaKnown || env.readEcdsaPublicKey fromN.name) = true →
     (env.b64decode p.key).length = env.ECDH_SIZE + env.ecdsaSizeOf fromN.name →
     ¬ env.ECDH_SHARED_SIZE < env.cipherKeylength p.cipher →
     env.ecdsaVerify fromN.name ((env.b64decode p.key).take env.ECDH_SIZE)
       ((env.b64decode p.key).drop env.ECDH_SIZE) = true →
     fromN.ecdh = true →
     env.ecdhComputeShared fromN.name ((env.b64decode p.key).take env.ECDH_SIZE) = none →
      (ans_key_h env st cn ch r).1 = true ∧
      ∃ n', (ans_key_h env st cn ch r).2.1.nodes p.fromName = some n' ∧
        n'.outcipher = { nid := p.cipher, key := none } ∧
        n'.outdigest = { nid := p.digest, maclength := p.maclength, key := none } ∧
        n'.outcompression = p.compression ∧
        n'.validkey = fromN.validkey) := by
  have hne : ¬(p.toName ≠ env.myselfName) := by simp [hself]
  refine ⟨?_, ?_, ?_, ?_, ?_⟩
  · intro hcomp
    constructor <;>
      simp [ans_key_h, hp, hid, hf, ht, hne, ans_key_terminal, hc, hd, digest_length,
        hm.symm, hcomp, updNode, hname]
  · intro h0 h1 hx hv hek
    rw [hname] at hek
    have hcompn : ¬(p.compression < 0 ∨ p.compression > 11) := by omega
    constructor <;>
      simp [ans_key_h, hp, hid, hf, ht, hne, ans_key_terminal, hc, hd, digest_length,
        hm.symm, hcompn, hx, hv, hek, updNode, hname]
  · intro h0 h1 hx hv hek hkb
    rw [hname] at hek hkb
    have hcompn : ¬(p.compression < 0 ∨ p.compression > 11) := by omega
    constructor <;>
      simp [ans_key_h, hp, hid, hf, ht, hne, ans_key_terminal, hc, hd, digest_length,
        hm.symm, hcompn, hx, hv, hek, hkb, updNode, hname]
  · intro h0 h1 hx hv hek hkb hsz hsig
    rw [hname] at hek hkb hsig
    have hcompn : ¬(p.compression < 0 ∨ p.compression > 11) := by omega
    constructor <;>
      simp [ans_key_h, hp, hid, hf, ht, hne, ans_key_terminal, hc, hd, digest_length,
        hm.symm, hcompn, hx, hv, hek, hkb, hsz, hsig, updNode, hname]
  · intro h0 h1 hx hv hek hkb hsz hsig hecdh hshared
    rw [hname] at hek hkb hsig hshared
    have hcompn : ¬(p.compression < 0 ∨ p.compression > 11) := by omega
    constructor <;>
      simp [ans_key_h, hp, hid, hf, ht, hne, ans_key_terminal, ansKeyModernFinish, hc,
        hd, digest_length, hm.symm, hcompn, hx, hv, hek, hkb, hsz, hsig, hecdh,
        hshared, updNode, hname]

/-- C10 witness: the amended theorem applied at the concrete
bogus-compression input of the counterexample. -/
theorem C10_soft_error_mutation_witness :
    (ans_key_h envT stT "b" "bh" "16 b a GOODKEY 92 64 4 12").1 = true ∧
    ∃ n', (ans_key_h envT stT "b" "bh" "16 b a GOODKEY 92 64 4 12").2.1.nodes "b" =
        some n' ∧
      n'.outcipher = { nid := 92, key := none } ∧
      n'.outdigest = { nid := 64, maclength := 4, key := none } ∧
      n'.outcompression = (mkNode "b" (2 * 16777216)).outcompression ∧
      n'.validkey = (mkNode "b" (2 * 16777216)).validkey :=
  (C10_soft_error_mutation envT stT "b" "bh" "16 b a GOODKEY 92 64 4 12"
    ⟨"b", "a", "GOODKEY", 92, 64, 4, 12, "", ""⟩ (mkNode "b" (2 * 16777216)) (mkNode "a" 0)
    (by decide) (by decide) (by decide) (by decide) (by decide) (by decide)
    (by decide) (by decide) (by decide)).1 (by decide)

/-- Helper: with a total PRF, `modernKeyInstall` cannot fail. -/
theorem modernKeyInstall_ne_none (env : Env) (fm : Node) (sh : List Nat)
    (hprf : ∀ s sd n, env.prf s sd n ≠ none) :
    modernKeyInstall env fm sh ≠ none := by
  have htot := hprf sh (kdfSeed env fm)
    (env.cipherKeylength fm.outcipher.nid * 2 + env.cipherKeylength env.myselfIncipherNid * 2)
  unfold modernKeyInstall
  cases hpr : env.prf sh (kdfSeed env fm)
      (env.cipherKeylength fm.outcipher.nid * 2 +
        env.cipherKeylength env.myselfIncipherNid * 2) with
  | none => exact absurd hpr htot
  | some out => simp [hpr]

/-- Helper: a successful `modernKeyInstall` installs all four crypto
contexts and resets the inbound counter and replay window in the same
step, preserving the node's identity. -/
theorem modernKeyInstall_some_fields (env : Env) (fm : Node) (sh : List Nat)
    (n' : Node) (sd : String)
    (h : modernKeyInstall env fm sh = some (n', sd)) :
    n'.incipher.key.isSome = true ∧ n'.indigest.key.isSome = true ∧
    n'.outcipher.key.isSome = true ∧ n'.outdigest.key.isSome = true ∧
    n'.received_seqno = 0 ∧
    n'.late = (if env.replaywin ≠ 0 then List.replicate env.replaywin false else fm.late) ∧
    n'.name = fm.name := by
  unfold modernKeyInstall at h
  cases hpr : env.prf sh (kdfSeed env fm)
      (env.cipherKeylength fm.outcipher.nid * 2 +
        env.cipherKeylength env.myselfIncipherNid * 2) with
  | none => simp [hpr] at h
  | some out =>
    simp only [hpr, Option.some.injEq, Prod.mk.injEq] at h
    obtain ⟨h1, _⟩ := h
    subst h1
    by_cases hlt : strLt env.myselfName fm.name = true <;>
    by_cases hw : env.replaywin = 0 <;>
      simp [cipher_set_key, digest_set_key, hw, hlt]

/-- C3: every operation that installs data-plane key material resets the
matching sequence counter(s) and replay window in the same handler step:
the legacy path of `send_ans_key` installs `to.incipher`/`to.indigest` and
in the same step zeroes `to.received_seqno` and the replay window (and sets
`mykeyused`); the modern terminal path of `ans_key_h` installs all four
contexts and in the same step zeroes `received_seqno`, the replay window
and `sent_seqno`; the legacy terminal path installs
`from.outcipher`/`from.outdigest` and in the same step zeroes
`sent_seqno` (its outbound counter). Counters, window and installed keys
are never observed out of sync. -/
theorem C3_install_resets_counters :
    (∀ (env : Env) (st : St) (toN : Node),
      ¬(env.experimental = true ∧ OPTION_VERSION toN.options ≥ 2) →
      (send_ans_key env st toN).1 = true ∧
      ∃ n', (send_ans_key env st toN).2.1.nodes toN.name = some n' ∧
        n'.incipher.key.isSome = true ∧ n'.indigest.key.isSome = true ∧
        n'.received_seqno = 0 ∧
        n'.late = (if env.replaywin ≠ 0 then List.replicate env.replaywin false
          else toN.late) ∧
        (send_ans_key env st toN).2.1.mykeyused = true) ∧
    (∀ (env : Env) (st : St) (cn ch r : String) (p : AnsKeyMsg) (fromN toN : Node)
       (sh : List Nat),
      parseAnsKey r = some p →
      (env.checkId p.fromName && env.checkId p.toName) = true →
      st.nodes p.fromName = some fromN →
      st.nodes p.toName = some toN →
      p.toName = env.myselfName →
      fromN.name = p.fromName →
      env.cipherOpenOk p.cipher = true →
      env.digestOpenOk p.digest p.maclength = true →
      p.maclength = env.digestLengthCtx p.digest p.maclength →
      0 ≤ p.compression → p.compression ≤ 11 →
      env.experimental = true → OPTION_VERSION fromN.options ≥ 2 →
      (fromN.ecdsaKnown || env.readEcdsaPublicKey fromN.name) = true →
      (env.b64decode p.key).length = env.ECDH_SIZE + env.ecdsaSizeOf fromN.name →
      ¬ env.ECDH_SHARED_SIZE < env.cipherKeylength p.cipher →
      env.ecdsaVerify fromN.name ((env.b64decode p.key).take env.ECDH_SIZE)
        ((env.b64decode p.key).drop env.ECDH_SIZE) = true →
      fromN.ecdh = true →
      env.ecdhComputeShared fromN.name ((env.b64decode p.key).take env.ECDH_SIZE) =
        some sh →
      (∀ s sd n, env.prf s sd n ≠ none) →
      (ans_key_h env st cn ch r).1 = true ∧
      ∃ n', (ans_key_h env st cn ch r).2.1.nodes p.fromName = some n' ∧
        n'.incipher.key.isSome = true ∧ n'.indigest.key.isSome = true ∧
        n'.outcipher.key.isSome = true ∧ n'.outdigest.key.isSome = true ∧
        n'.received_seqno = 0 ∧ n'.sent_seqno = 0 ∧
        n'.late = (if env.replaywin ≠ 0 then List.replicate env.replaywin false
          else fromN.late) ∧
        (ans_key_h env st cn ch r).2.1.mykeyused = true) ∧
    (∀ (env : Env) (st : St) (cn ch r : String) (p : AnsKeyMsg) (fromN toN : Node),
      parseAnsKey r = some p →
      (env.checkId p.fromName && env.checkId p.toName) = true →
      st.nodes p.fromName = some fromN →
      st.nodes p.toName = some toN →
      p.toName = env.myselfName →
      fromN.name = p.fromName →
      env.cipherOpenOk p.cipher = true →
      env.digestOpenOk p.digest p.maclength = true →
      p.maclength = env.digestLengthCtx p.digest p.maclength →
      0 ≤ p.compression → p.compression ≤ 11 →
      ¬(env.experimental = true ∧ OPTION_VERSION fromN.options ≥ 2) →
      (env.hex2bin p.key).length = env.cipherKeylength p.cipher →
      (ans_key_h env st cn ch r).1 = true ∧
      ∃ n', (ans_key_h env st cn ch r).2.1.nodes p.fromName = some n' ∧
        n'.outcipher.key.isSome = true ∧ n'.outdigest.key.isSome = true ∧
        n'.sent_seqno = 0) := by
  refine ⟨?_, ?_, ?_⟩
  · intro env st toN hlegacy
    by_cases hw : env.replaywin = 0 <;>
      refine ⟨?_, ?_⟩ <;>
        simp [send_ans_key, hlegacy, cipher_set_key, digest_set_key, updNode, hw]
  · intro env st cn ch r p fromN toN sh hp hid hf ht hself hname hc hd hm h0 h1 hx hv
      hek hkb hsz hsig hecdh hshared hprf
    have hne : ¬(p.toName ≠ env.myselfName) := by simp [hself]
    have hcompn : ¬(p.compression < 0 ∨ p.compression > 11) := by omega
    rw [hname] at hek hkb hsig hshared
    constructor
    · simp [ans_key_h, hp, hid, hf, ht, hne, ans_key_terminal, ansKeyModernFinish, hc,
        hd, digest_length, hm.symm, hcompn, hx, hv, hek, hkb, hsz, hsig, hecdh,
        hshared, hname]
      split
      · next hnone => exact absurd hnone (modernKeyInstall_ne_none _ _ _ hprf)
      · next n7 sd hsome => simp [ansKeyFinalize]
    · simp [ans_key_h, hp, hid, hf, ht, hne, ans_key_terminal, ansKeyModernFinish, hc,
        hd, digest_length, hm.symm, hcompn, hx, hv, hek, hkb, hsz, hsig, hecdh,
        hshared, hname]
      split
      · next hnone => exact absurd hnone (modernKeyInstall_ne_none _ _ _ hprf)
      · next n7 sd hsome =>
        obtain ⟨hin, hind, hout, houtd, hrec, hlate, hnm⟩ :=
          modernKeyInstall_some_fields _ _ _ _ _ hsome
        refine ⟨{ n7 with validkey := true, sent_seqno := 0 }, ?_, ?_, ?_, ?_, ?_,
          ?_, ?_, ?_, ?_⟩ <;>
          simp [ansKeyFinalize, updNode, hnm, hname, hin, hind, hout, houtd, hrec, hlate]
  · intro env st cn ch r p fromN toN hp hid hf ht hself hname hc hd hm h0 h1 hlegacy hk
    have hne : ¬(p.toName ≠ env.myselfName) := by simp [hself]
    have hcompn : ¬(p.compression < 0 ∨ p.compression > 11) := by omega
    constructor <;>
      simp [ans_key_h, hp, hid, hf, ht, hne, ans_key_terminal, hc, hd, digest_length,
        hm.symm, hcompn, hlegacy, hk, updNode, hname, ansKeyFinalize,
        cipher_set_key, digest_set_key]

/-- C3 witness: the modern-terminal part applied at a concrete successful
ECDH `ANS_KEY`: all four contexts installed and every counter plus the
replay window reset in the same step. -/
theorem C3_install_resets_counters_witness :
    (ans_key_h envT stT "b" "bh" "16 b a GOODKEY 92 64 4 0").1 = true ∧
    ∃ n', (ans_key_h envT stT "b" "bh" "16 b a GOODKEY 92 64 4 0").2.1.nodes "b" =
        some n' ∧
      n'.incipher.key.isSome = true ∧ n'.indigest.key.isSome = true ∧
      n'.outcipher.key.isSome = true ∧ n'.outdigest.key.isSome = true ∧
      n'.received_seqno = 0 ∧ n'.sent_seqno = 0 ∧
      n'.late = (if envT.replaywin ≠ 0 then List.replicate envT.replaywin false
        else (mkNode "b" (2 * 16777216)).late) ∧
      (ans_key_h envT stT "b" "bh" "16 b a GOODKEY 92 64 4 0").2.1.mykeyused = true :=
  C3_install_resets_counters.2.1 envT stT "b" "bh" "16 b a GOODKEY 92 64 4 0"
    ⟨"b", "a", "GOODKEY", 92, 64, 4, 0, "", ""⟩ (mkNode "b" (2 * 16777216)) (mkNode "a" 0)
    [3, 3, 3, 3, 3, 3, 3, 3]
    (by decide) (by decide) (by decide) (by decide) (by decide) (by decide)
    (by decide) (by decide) (by decide) (by decide) (by decide) (by decide)
    (by decide) (by decide) (by decide) (by decide) (by decide) (by decide)
    (by decide) (fun s sd n => by simp [envT])

/-- Helper: byte-wise `strcmp` order is asymmetric. -/
theorem strcmpLtAux_asymm (a b : List Char) (h : strcmpLtAux a b = true) :
    strcmpLtAux b a = false := by
  induction a generalizing b with
  | nil =>
    cases b with
    | nil => simp [strcmpLtAux] at h
    | cons d ds => simp [strcmpLtAux]
  | cons c cs ih =>
    cases b with
    | nil => simp [strcmpLtAux] at h
    | cons d ds =>
      by_cases h1 : c.toNat < d.toNat
      · have h2 : ¬ d.toNat < c.toNat := by omega
        simp [strcmpLtAux, h1, h2]
      · by_cases h2 : d.toNat < c.toNat
        · simp [strcmpLtAux, h1, h2] at h
        · simp only [strcmpLtAux, if_neg h1, if_neg h2] at h
          simp only [strcmpLtAux, if_neg h1, if_neg h2]
          exact ih ds h

/-- Helper: `strcmp`-smaller is asymmetric on strings. -/
theorem strLt_asymm (a b : String) (h : strLt a b = true) : strLt b a = false :=
  strcmpLtAux_asymm a.data b.data h

/-- C1: in the modern terminal path the PRF seed is exactly
`"tinc UDP key expansion <lower> <higher>"`, the lexicographically smaller
self owns the first PRF block (`mykey` first, `hiskey` second; reversed for
the larger name), and consequently, for a fixed shared secret and pair of
distinct names, the material node A installs as inbound equals what node B
installs as outbound and vice versa. Here `envA`/`nodeB` are the smaller
node's environment and its record of the peer, `envB`/`nodeA` the larger
node's; both sides share the cipher library and the PRF, and each opened
`outcipher` with the NID the other advertises as its `incipher`. -/
theorem C1_kdf_role_symmetry
    (envA envB : Env) (nodeB nodeA : Node) (shared out : List Nat)
    (hBA : nodeB.name = envB.myselfName)
    (hAB : nodeA.name = envA.myselfName)
    (hlt : strLt envA.myselfName envB.myselfName = true)
    (hkl : envA.cipherKeylength = envB.cipherKeylength)
    (hprfeq : envA.prf = envB.prf)
    (hnidA : nodeB.outcipher.nid = envB.myselfIncipherNid)
    (hnidB : nodeA.outcipher.nid = envA.myselfIncipherNid)
    (hout : envA.prf shared
      ("tinc UDP key expansion " ++ envA.myselfName ++ " " ++ envB.myselfName)
      (envA.cipherKeylength envB.myselfIncipherNid * 2 +
        envA.cipherKeylength envA.myselfIncipherNid * 2) = some out) :
    kdfSeed envA nodeB =
      "tinc UDP key expansion " ++ envA.myselfName ++ " " ++ envB.myselfName ∧
    kdfSeed envB nodeA =
      "tinc UDP key expansion " ++ envA.myselfName ++ " " ++ envB.myselfName ∧
    ∃ nA sdA nB sdB,
      modernKeyInstall envA nodeB shared = some (nA, sdA) ∧
      modernKeyInstall envB nodeA shared = some (nB, sdB) ∧
      nA.incipher.key =
        some (out.take (envA.cipherKeylength envA.myselfIncipherNid), false) ∧
      nA.indigest.key =
        some ((out.drop (envA.cipherKeylength envA.myselfIncipherNid)).take
          (envA.cipherKeylength envA.myselfIncipherNid)) ∧
      nA.outcipher.key =
        some ((out.drop (envA.cipherKeylength envA.myselfIncipherNid * 2)).take
          (envA.cipherKeylength envB.myselfIncipherNid), true) ∧
      nA.outdigest.key =
        some (((out.drop (envA.cipherKeylength envA.myselfIncipherNid * 2)).drop
          (envA.cipherKeylength envB.myselfIncipherNid)).take
          (envA.cipherKeylength envB.myselfIncipherNid)) ∧
      nB.incipher.key =
        some ((out.drop (envA.cipherKeylength envA.myselfIncipherNid * 2)).take
          (envA.cipherKeylength envB.myselfIncipherNid), false) ∧
      nB.indigest.key =
        some (((out.drop (envA.cipherKeylength envA.myselfIncipherNid * 2)).drop
          (envA.cipherKeylength envB.myselfIncipherNid)).take
          (envA.cipherKeylength envB.myselfIncipherNid)) ∧
      nB.outcipher.key =
        some (out.take (envA.cipherKeylength envA.myselfIncipherNid), true) ∧
      nB.outdigest.key =
        some ((out.drop (envA.cipherKeylength envA.myselfIncipherNid)).take
          (envA.cipherKeylength envA.myselfIncipherNid)) ∧
      nA.incipher.key.map Prod.fst = nB.outcipher.key.map Prod.fst ∧
      nA.indigest.key = nB.outdigest.key ∧
      nA.outcipher.key.map Prod.fst = nB.incipher.key.map Prod.fst ∧
      nA.outdigest.key = nB.indigest.key := by
  have hltA : strLt envA.myselfName nodeB.name = true := by rw [hBA]; exact hlt
  have hltB : strLt envB.myselfName nodeA.name = false := by
    rw [hAB]; exact strLt_asymm _ _ hlt
  have hlt2 : strLt envB.myselfName envA.myselfName = false := strLt_asymm _ _ hlt
  have hseedA : kdfSeed envA nodeB =
      "tinc UDP key expansion " ++ envA.myselfName ++ " " ++ envB.myselfName := by
    simp [kdfSeed, hBA, hlt]
  have hseedB : kdfSeed envB nodeA =
      "tinc UDP key expansion " ++ envA.myselfName ++ " " ++ envB.myselfName := by
    simp [kdfSeed, hAB, hlt2]
  have houtA : envA.prf shared (kdfSeed envA nodeB)
      (envA.cipherKeylength nodeB.outcipher.nid * 2 +
        envA.cipherKeylength envA.myselfIncipherNid * 2) = some out := by
    rw [hseedA, hnidA]; exact hout
  have houtB : envB.prf shared (kdfSeed envB nodeA)
      (envB.cipherKeylength nodeA.outcipher.nid * 2 +
        envB.cipherKeylength envB.myselfIncipherNid * 2) = some out := by
    rw [hseedB, ← hprfeq, hnidB, ← hkl, Nat.add_comm]
    exact hout
  refine ⟨hseedA, hseedB, ?_⟩
  simp only [modernKeyInstall]
  rw [houtA, houtB]
  refine ⟨_, _, _, _, rfl, rfl, ?_, ?_, ?_, ?_, ?_, ?_, ?_, ?_, ?_, ?_, ?_, ?_⟩ <;>
    simp [cipher_set_key, digest_set_key, hltA, hltB, hnidA, hnidB, ← hkl]

/-- C1 witness: the symmetry theorem applied to concrete nodes `a` (cipher
NID 91, keylength 3) and `b` (cipher NID 92, keylength 2) sharing the
secret `[3,...]`: the seed is the literal string and `a`'s inbound material
equals `b`'s outbound material, and vice versa. -/
theorem C1_kdf_role_symmetry_witness :
    kdfSeed envT nodeBatA = "tinc UDP key expansion a b" ∧
    kdfSeed envTB nodeAatB = "tinc UDP key expansion a b" ∧
    ∃ nA sdA nB sdB,
      modernKeyInstall envT nodeBatA [3, 3, 3, 3, 3, 3, 3, 3] = some (nA, sdA) ∧
      modernKeyInstall envTB nodeAatB [3, 3, 3, 3, 3, 3, 3, 3] = some (nB, sdB) ∧
      nA.incipher.key = some ([100, 101, 102], false) ∧
      nA.indigest.key = some [103, 104, 105] ∧
      nA.outcipher.key = some ([106, 107], true) ∧
      nA.outdigest.key = some [108, 109] ∧
      nB.incipher.key = some ([106, 107], false) ∧
      nB.indigest.key = some [108, 109] ∧
      nB.outcipher.key = some ([100, 101, 102], true) ∧
      nB.outdigest.key = some [103, 104, 105] ∧
      nA.incipher.key.map Prod.fst = nB.outcipher.key.map Prod.fst ∧
      nA.indigest.key = nB.outdigest.key ∧
      nA.outcipher.key.map Prod.fst = nB.incipher.key.map Prod.fst ∧
      nA.outdigest.key = nB.indigest.key :=
  C1_kdf_role_symmetry envT envTB nodeBatA nodeAatB [3, 3, 3, 3, 3, 3, 3, 3]
    [100, 101, 102, 103, 104, 105, 106, 107, 108, 109]
    (by decide) (by decide) (by decide) rfl rfl (by decide) (by decide) (by decide)

/-- Helper: the finalization step appends no intruder warning. -/
theorem noIntr_ansKeyFinalize (env : Env) (st : St) (n : Node) (p : AnsKeyMsg)
    (effs : List Effect) (h : noIntruder effs = true) :
    noIntruder (ansKeyFinalize env st n p effs).2.2 = true := by
  unfold ansKeyFinalize
  simp only [noIntruder, List.all_append]
  split_ifs <;> simp_all [noIntruder, Effect.isIntruder]

/-- Helper: `send_ans_key_ecdh` emits no intruder warning. -/
theorem noIntr_send_ans_key_ecdh (env : Env) (st : St) (n : Node) :
    noIntruder (send_ans_key_ecdh env st n).2.2.2 = true := by
  unfold send_ans_key_ecdh
  cases h1 : env.ecdhGeneratePublic n.name with
  | none => simp [h1, noIntruder]
  | some pub =>
    cases h2 : env.ecdsaSign pub with
    | none => simp [h1, h2, noIntruder]
    | some sig => simp [h1, h2, noIntruder, Effect.isIntruder]

/-- Helper: the post-verification modern tail emits no intruder warning. -/
theorem noIntr_ansKeyModernFinish (env : Env) (st : St) (fm : Node) (p : AnsKeyMsg)
    (kb : List Nat) : noIntruder (ansKeyModernFinish env st fm p kb).2.2 = true := by
  unfold ansKeyModernFinish
  by_cases he : fm.ecdh = true
  · simp only [he, if_true, ite_true]
    cases h2 : env.ecdhComputeShared fm.name (kb.take env.ECDH_SIZE) with
    | none => simp [h2, noIntruder]
    | some sh =>
      cases h3 : modernKeyInstall env { fm with ecdh := false } sh with
      | none => simp [h2, h3, noIntruder]
      | some pr =>
        cases pr with
        | mk n7 sd =>
          try simp only [h2, h3]
          exact noIntr_ansKeyFinalize _ _ _ _ _ (by simp [noIntruder])
  · simp only [he, Bool.not_eq_true] at *
    simp only [he, Bool.false_eq_true, if_false, ite_false]
    have hsub := noIntr_send_ans_key_ecdh env st fm
    rcases h4 : send_ans_key_ecdh env st fm with ⟨ok, n5, st5, effs⟩
    rw [h4] at hsub
    cases ok with
    | false => simpa using hsub
    | true =>
      cases h2 : env.ecdhComputeShared n5.name (kb.take env.ECDH_SIZE) with
      | none => simpa [h2, noIntruder] using hsub
      | some sh =>
        cases h3 : modernKeyInstall env { n5 with ecdh := false } sh with
        | none => simpa [h2, h3, noIntruder] using hsub
        | some pr =>
          cases pr with
          | mk n7 sd =>
            try simp only [h2, h3]
            exact noIntr_ansKeyFinalize _ _ _ _ _ hsub

/-- Helper: `ans_key_terminal` either emits no intruder warning, or the
frame was modern, ECDSA verification failed, and the handler returned
success with exactly the intruder warning as its effects. -/
theorem ansKeyTerminal_intruder_cases (env : Env) (st : St) (fromN : Node)
    (p : AnsKeyMsg) :
    noIntruder (ans_key_terminal env st fromN p).2.2 = true ∨
    (env.experimental = true ∧ OPTION_VERSION fromN.options ≥ 2 ∧
     env.ecdsaVerify fromN.name ((env.b64decode p.key).take env.ECDH_SIZE)
       ((env.b64decode p.key).drop env.ECDH_SIZE) = false ∧
     (ans_key_terminal env st fromN p).1 = true ∧
     (ans_key_terminal env st fromN p).2.2 =
       [Effect.log (LogMsg.possibleIntruder fromN.name fromN.hostname
         "invalid ECDSA signature")]) := by
  cases hc : env.cipherOpenOk p.cipher with
  | false => left; simp [ans_key_terminal, hc, noIntruder, Effect.isIntruder]
  | true =>
  cases hd : env.digestOpenOk p.digest p.maclength with
  | false => left; simp [ans_key_terminal, hc, hd, noIntruder, Effect.isIntruder]
  | true =>
  by_cases hm : p.maclength = env.digestLengthCtx p.digest p.maclength
  case neg =>
    left
    simp [ans_key_terminal, hc, hd, digest_length, hm, noIntruder, Effect.isIntruder]
  case pos =>
  by_cases hcomp : p.compression < 0 ∨ p.compression > 11
  case pos =>
    left
    simp [ans_key_terminal, hc, hd, digest_length, hm.symm, hcomp, noIntruder,
      Effect.isIntruder]
  case neg =>
  by_cases hmod : env.experimental = true ∧ OPTION_VERSION fromN.options ≥ 2
  case neg =>
    by_cases hk : (env.hex2bin p.key).length = env.cipherKeylength p.cipher
    case neg =>
      left
      simp [ans_key_terminal, hc, hd, digest_length, hm.symm, hcomp, hmod, hk,
        noIntruder, Effect.isIntruder]
    case pos =>
      left
      simp only [ans_key_terminal, hc, hd, digest_length, hm.symm, hcomp, hmod, hk]
      simp [hm.symm, hcomp, hmod, hk]
      exact noIntr_ansKeyFinalize _ _ _ _ _ (by simp [noIntruder])
  case pos =>
    cases hek : fromN.ecdsaKnown || env.readEcdsaPublicKey fromN.name with
    | false =>
      left
      simp [ans_key_terminal, hc, hd, digest_length, hm.symm, hcomp, hmod, hek,
        noIntruder, Effect.isIntruder]
    | true =>
    by_cases hkb : (env.b64decode p.key).length =
        env.ECDH_SIZE + env.ecdsaSizeOf fromN.name
    case neg =>
      left
      simp [ans_key_terminal, hc, hd, digest_length, hm.symm, hcomp, hmod, hek, hkb,
        noIntruder, Effect.isIntruder]
    case pos =>
    by_cases hsz : env.ECDH_SHARED_SIZE < env.cipherKeylength p.cipher
    case pos =>
      left
      simp [ans_key_terminal, hc, hd, digest_length, hm.symm, hcomp, hmod, hek, hkb,
        hsz, noIntruder, Effect.isIntruder]
    case neg =>
    cases hsig : env.ecdsaVerify fromN.name ((env.b64decode p.key).take env.ECDH_SIZE)
        ((env.b64decode p.key).drop env.ECDH_SIZE) with
    | false =>
      right
      refine ⟨hmod.1, hmod.2, rfl, ?_, ?_⟩ <;>
        simp [ans_key_terminal, hc, hd, digest_length, hm.symm, hcomp, hmod, hek, hkb,
          hsz, hsig]
    | true =>
      left
      simp only [ans_key_terminal]
      simp [hc, hd, digest_length, hm.symm, hcomp, hmod, hek, hkb, hsz, hsig]
      exact noIntr_ansKeyModernFinish _ _ _ _ _

/-- Helper: `key_changed_h` never emits the intruder warning. -/
theorem noIntr_key_changed_h (env : Env) (st : St) (cn ch r : String) :
    noIntruder (key_changed_h env st cn ch r).2.2 = true := by
  unfold key_changed_h
  cases hp : parseKeyChanged r with
  | none => simp [noIntruder, Effect.isIntruder]
  | some name =>
    by_cases hs : r ∈ st.seen
    · simp [seen_request, hs, noIntruder]
    · cases hn : st.nodes name with
      | none => simp [seen_request, hs, hn, noIntruder, Effect.isIntruder]
      | some n =>
        by_cases hts : env.tunnelserver = true <;>
          simp [seen_request, hs, hn, hts, noIntruder, Effect.isIntruder]

/-- Helper: the extended `REQ_KEY` sub-protocol never emits the intruder
warning. -/
theorem noIntr_req_key_ext_h (env : Env) (st : St) (fm : Node) (reqno : Int)
    (r : String) : noIntruder (req_key_ext_h env st fm reqno r).2.2 = true := by
  unfold req_key_ext_h
  repeat' split
  all_goals simp [noIntruder, Effect.isIntruder]

/-- Helper: `send_ans_key` never emits the intruder warning. -/
theorem noIntr_send_ans_key (env : Env) (st : St) (n : Node) :
    noIntruder (send_ans_key env st n).2.2 = true := by
  unfold send_ans_key
  split
  · simpa using noIntr_send_ans_key_ecdh env st n
  · simp [noIntruder, Effect.isIntruder]

/-- Helper: `send_req_key` never emits the intruder warning. -/
theorem noIntr_send_req_key (env : Env) (st : St) (n : Node) :
    noIntruder (send_req_key env st n).2.2 = true := by
  unfold send_req_key
  repeat' split
  all_goals simp [noIntruder, Effect.isIntruder]

/-- Helper: `req_key_h` never emits the intruder warning. -/
theorem noIntr_req_key_h (env : Env) (st : St) (cn ch r : String) :
    noIntruder (req_key_h env st cn ch r).2.2 = true := by
  unfold req_key_h
  split
  · simp [noIntruder, Effect.isIntruder]
  · split
    · simp [noIntruder, Effect.isIntruder]
    · split
      · simp [noIntruder, Effect.isIntruder]
      · split
        · simp [noIntruder, Effect.isIntruder]
        · split
          · split
            · exact noIntr_req_key_ext_h _ _ _ _ _
            · simpa using noIntr_send_ans_key _ _ _
          · split
            · simp [noIntruder]
            · split
              · simp [noIntruder, Effect.isIntruder]
              · simp [noIntruder, Effect.isIntruder]

/-- Helper: one `send_key_changed` loop step preserves intruder-freedom of
the accumulated effects. -/
theorem noIntr_sendKeyChangedStep (env : Env) (acc : St × List Effect) (c : Conn)
    (h : noIntruder acc.2 = true) :
    noIntruder (sendKeyChangedStep env acc c).2 = true := by
  unfold sendKeyChangedStep
  split
  · split
    · exact h
    · split
      · exact h
      · split
        · rename_i n heq hre
          have hs := noIntr_send_ans_key env acc.1 n
          simp only [noIntruder, List.all_append]
          simp only [noIntruder] at h hs
          simp [h, hs]
        · exact h
  · exact h

/-- Helper: `send_key_changed` never emits the intruder warning. -/
theorem noIntr_send_key_changed (env : Env) (st : St) (nonce : Nat) :
    noIntruder (send_key_changed env st nonce).2 = true := by
  unfold send_key_changed
  have hgen : ∀ (cs : List Conn) (acc : St × List Effect), noIntruder acc.2 = true →
      noIntruder (cs.foldl (sendKeyChangedStep env) acc).2 = true := by
    intro cs
    induction cs with
    | nil => intro acc h; simpa using h
    | cons c rest ih =>
      intro acc h
      simp only [List.foldl_cons]
      exact ih _ (noIntr_sendKeyChangedStep env acc c h)
  exact hgen _ _ (by simp [noIntruder, Effect.isIntruder])

/-- Helper: `ans_key_h` either emits no intruder warning or the request
parsed as a modern `ANS_KEY` to self from a known origin whose ECDSA
signature failed to verify; in that case the handler returned success with
exactly the intruder warning. -/
theorem ansKey_intruder_characterization (env : Env) (st : St) (cn ch r : String) :
    noIntruder (ans_key_h env st cn ch r).2.2 = true ∨
    ∃ p fromN, parseAnsKey r = some p ∧ st.nodes p.fromName = some fromN ∧
      p.toName = env.myselfName ∧
      env.experimental = true ∧ OPTION_VERSION fromN.options ≥ 2 ∧
      env.ecdsaVerify fromN.name ((env.b64decode p.key).take env.ECDH_SIZE)
        ((env.b64decode p.key).drop env.ECDH_SIZE) = false ∧
      (ans_key_h env st cn ch r).1 = true ∧
      (ans_key_h env st cn ch r).2.2 =
        [Effect.log (LogMsg.possibleIntruder fromN.name fromN.hostname
          "invalid ECDSA signature")] := by
  unfold ans_key_h
  split
  · left; simp [noIntruder, Effect.isIntruder]
  · split
    · left; simp [noIntruder, Effect.isIntruder]
    · split
      · left; simp [noIntruder, Effect.isIntruder]
      · split
        · left; simp [noIntruder, Effect.isIntruder]
        · split
          · repeat' split
            all_goals (left; simp [noIntruder, Effect.isIntruder])
          · rename_i xo p hp hcid xf fromN hf xt toN ht hself
            rcases ansKeyTerminal_intruder_cases env st fromN p with h | h
            · left; exact h
            · right
              refine ⟨p, fromN, hp, hf, ?_, h.1, h.2.1, h.2.2.1, h.2.2.2.1, h.2.2.2.2⟩
              by_contra hne
              exact hself hne

/-- C2: for a modern `ANS_KEY` addressed to self whose sender's ECDSA key is
known and whose decoded key field has the correct length, a failed ECDSA
verification makes `ans_key_h` log the "Possible intruder" warning and
return success (no teardown), leaving `from.status.validkey` at its prior
value; and across the whole core — `ans_key_h`, `key_changed_h`,
`req_key_h` (with its extended sub-protocol), `send_ans_key`,
`send_req_key` and `send_key_changed` — the warning is emitted under no
other condition than ECDSA verification failure on a terminal modern
`ANS_KEY`. -/
theorem C2_possible_intruder :
    (∀ (env : Env) (st : St) (cn ch r : String) (p : AnsKeyMsg) (fromN toN : Node),
      parseAnsKey r = some p →
      (env.checkId p.fromName && env.checkId p.toName) = true →
      st.nodes p.fromName = some fromN →
      st.nodes p.toName = some toN →
      p.toName = env.myselfName →
      fromN.name = p.fromName →
      env.cipherOpenOk p.cipher = true →
      env.digestOpenOk p.digest p.maclength = true →
      p.maclength = env.digestLengthCtx p.digest p.maclength →
      0 ≤ p.compression → p.compression ≤ 11 →
      env.experimental = true → OPTION_VERSION fromN.options ≥ 2 →
      (fromN.ecdsaKnown || env.readEcdsaPublicKey fromN.name) = true →
      (env.b64decode p.key).length = env.ECDH_SIZE + env.ecdsaSizeOf fromN.name →
      ¬ env.ECDH_SHARED_SIZE < env.cipherKeylength p.cipher →
      env.ecdsaVerify fromN.name ((env.b64decode p.key).take env.ECDH_SIZE)
        ((env.b64decode p.key).drop env.ECDH_SIZE) = false →
      (ans_key_h env st cn ch r).1 = true ∧
      (ans_key_h env st cn ch r).2.2 =
        [Effect.log (LogMsg.possibleIntruder fromN.name fromN.hostname
          "invalid ECDSA signature")] ∧
      ∃ n', (ans_key_h env st cn ch r).2.1.nodes p.fromName = some n' ∧
        n'.validkey = fromN.validkey) ∧
    (∀ (env : Env) (st : St) (cn ch r : String),
      noIntruder (ans_key_h env st cn ch r).2.2 = true ∨
      ∃ p fromN, parseAnsKey r = some p ∧ st.nodes p.fromName = some fromN ∧
        p.toName = env.myselfName ∧
        env.experimental = true ∧ OPTION_VERSION fromN.options ≥ 2 ∧
        env.ecdsaVerify fromN.name ((env.b64decode p.key).take env.ECDH_SIZE)
          ((env.b64decode p.key).drop env.ECDH_SIZE) = false) ∧
    (∀ (env : Env) (st : St) (cn ch r : String),
      noIntruder (key_changed_h env st cn ch r).2.2 = true) ∧
    (∀ (env : Env) (st : St) (cn ch r : String),
      noIntruder (req_key_h env st cn ch r).2.2 = true) ∧
    (∀ (env : Env) (st : St) (n : Node), noIntruder (send_ans_key env st n).2.2 = true) ∧
    (∀ (env : Env) (st : St) (n : Node), noIntruder (send_req_key env st n).2.2 = true) ∧
    (∀ (env : Env) (st : St) (nonce : Nat),
      noIntruder (send_key_changed env st nonce).2 = true) := by
  refine ⟨?_, ?_, noIntr_key_changed_h, noIntr_req_key_h, noIntr_send_ans_key,
    noIntr_send_req_key, noIntr_send_key_changed⟩
  · intro env st cn ch r p fromN toN hp hid hf ht hself hname hc hd hm h0 h1 hx hv
      hek hkb hsz hsig
    have hne : ¬(p.toName ≠ env.myselfName) := by simp [hself]
    have hcompn : ¬(p.compression < 0 ∨ p.compression > 11) := by omega
    rw [hname] at hek hkb hsig
    refine ⟨?_, ?_, ?_⟩ <;>
      simp [ans_key_h, hp, hid, hf, ht, hne, ans_key_terminal, hc, hd, digest_length,
        hm.symm, hcompn, hx, hv, hek, hkb, hsz, hsig, updNode, hname]
  · intro env st cn ch r
    rcases ansKey_intruder_characterization env st cn ch r with h | h
    · exact Or.inl h
    · exact Or.inr ⟨h.choose, h.choose_spec.choose, h.choose_spec.choose_spec.1,
        h.choose_spec.choose_spec.2.1, h.choose_spec.choose_spec.2.2.1,
        h.choose_spec.choose_spec.2.2.2.1, h.choose_spec.choose_spec.2.2.2.2.1,
        h.choose_spec.choose_spec.2.2.2.2.2.1⟩

/-- C2 witness: a concrete modern `ANS_KEY` with a correct-length buffer
but a forged signature: the handler returns success, logs exactly the
"Possible intruder" warning, and leaves `b`'s `validkey` at its prior
value (false). -/
theorem C2_possible_intruder_witness :
    (ans_key_h envI stT "b" "bh" "16 b a BADKEY6 92 64 4 0").1 = true ∧
    (ans_key_h envI stT "b" "bh" "16 b a BADKEY6 92 64 4 0").2.2 =
      [Effect.log (LogMsg.possibleIntruder (mkNode "b" (2 * 16777216)).name
        (mkNode "b" (2 * 16777216)).hostname "invalid ECDSA signature")] ∧
    ∃ n', (ans_key_h envI stT "b" "bh" "16 b a BADKEY6 92 64 4 0").2.1.nodes "b" =
        some n' ∧
      n'.validkey = (mkNode "b" (2 * 16777216)).validkey :=
  C2_possible_intruder.1 envI stT "b" "bh" "16 b a BADKEY6 92 64 4 0"
    ⟨"b", "a", "BADKEY6", 92, 64, 4, 0, "", ""⟩ (mkNode "b" (2 * 16777216)) (mkNode "a" 0)
    (by decide) (by decide) (by decide) (by decide) (by decide) (by decide)
    (by decide) (by decide) (by decide) (by decide) (by decide) (by decide)
    (by decide) (by decide) (by decide) (by decide) (by decide)
